import Mathlib

/-!
KGraphIndex (donkey, `src/index-kgraph.cpp`).

A shallow embedding of the `KGraphIndex` class: the entry store, the count of
indexed entries, the optional graph, and the operations `insert`, `clear`,
`rebuild`, `recover`, `snapshot` and `search`.

The graph engine (kgraph) and the feature metric are external to the file and
enter as parameters (`KGraphEngine`, `FeatureSimilarity`).  File names are C
strings: a path stands for what `path.c_str()` names.
-/

namespace Donkey

/-! ## Floats -/

/-- An IEEE-754 binary32 value as its three bit fields (the C++ `float`). -/
structure F32 where
  sign : Bool
  expo : Fin 256
  frac : Fin 8388608
  deriving DecidableEq, Repr

namespace F32

/-- The C library `isnormal`: neither zero, subnormal, infinite nor NaN. -/
def isnormal (x : F32) : Bool := x.expo.val != 0 && x.expo.val != 255

/-- Not-a-number: all exponent bits set and a non-zero fraction. -/
def isNaN (x : F32) : Bool := x.expo.val == 255 && x.frac.val != 0

/-- Plus or minus infinity. -/
def isInf (x : F32) : Bool := x.expo.val == 255 && x.frac.val == 0

/-- Plus or minus zero. -/
def isZero (x : F32) : Bool := x.expo.val == 0 && x.frac.val == 0

/-- Subnormal: zero exponent field with a non-zero fraction. -/
def isSubnormal (x : F32) : Bool := x.expo.val == 0 && x.frac.val != 0

/-- Finite: neither infinite nor NaN. -/
def isFinite (x : F32) : Bool := x.expo.val != 255

/-- A finite value strictly greater than zero. -/
def isFinitePositive (x : F32) : Bool := x.isFinite && !x.isZero && !x.sign

/-- The product `x * -1` (`R *= -1`), which is compiled as a negation: the sign bit
flips, for every bit pattern, a NaN included. -/
def mulNegOne (x : F32) : F32 := { x with sign := !x.sign }

/-- The negation `-x`: the sign bit flips. -/
def neg (x : F32) : F32 := { x with sign := !x.sign }

/-- The float `1.0f`. -/
def one : F32 := ⟨false, 127, 0⟩

/-- The float `-1.0f`. -/
def negOne : F32 := ⟨true, 127, 0⟩

/-- The float `+0.0f`. -/
def zero : F32 := ⟨false, 0, 0⟩

/-- The float `2.0f`. -/
def two : F32 := ⟨false, 128, 0⟩

/-- The float `4.0f`. -/
def four : F32 := ⟨false, 129, 0⟩

/-- The float `-4.0f`. -/
def negFour : F32 := ⟨true, 129, 0⟩

/-- The position of a non-NaN float on the number line: the magnitude bits as an integer,
negated for a set sign bit (so that both zeros are 0). -/
def key (x : F32) : Int :=
  if x.sign then -((x.expo.val * 8388608 + x.frac.val : Nat) : Int)
  else ((x.expo.val * 8388608 + x.frac.val : Nat) : Int)

/-- The comparison `x < y` of two floats (false when one is a NaN). -/
def lt (x y : F32) : Bool := !x.isNaN && !y.isNaN && decide (x.key < y.key)

/-- The comparison `x <= y` of two floats (false when one is a NaN). -/
def le (x y : F32) : Bool := !x.isNaN && !y.isNaN && decide (x.key ≤ y.key)

/-- The smallest positive subnormal float. -/
def minSubnormal : F32 := ⟨false, 0, 1⟩

end F32

/-! ## Data model -/

/-- A `Feature const *`: the address of a feature owned by the caller. -/
abbrev FeaturePtr := Nat

/-- The record `KGraphIndex::Entry`. -/
structure Entry where
  object : Nat
  tag : Nat
  feature : FeaturePtr
  deriving DecidableEq, Repr

/-- One search result (`Match` of donkey.h): the fields `search` assigns. -/
structure Match where
  object : Nat
  tag : Nat
  distance : F32
  deriving DecidableEq, Repr

instance : Inhabited Match := ⟨⟨0, 0, F32.zero⟩⟩

/-- The fields of `SearchRequest` that `search` reads. -/
structure SearchRequest where
  hint_K : Int
  hint_R : F32
  deriving DecidableEq, Repr

/-- The fields of `KGraph::IndexParams` set by the constructor. -/
structure IndexParams where
  iterations : Nat
  L : Nat
  K : Nat
  S : Nat
  R : Nat
  controls : Nat
  seed : Nat
  delta : F32
  recall_ : F32
  prune : Nat
  deriving DecidableEq, Repr

/-- The fields of `KGraph::SearchParams` set by the constructor and by `search`. -/
structure SearchParams where
  K : Nat
  M : Nat
  P : Nat
  T : Nat
  epsilon : F32
  seed : Nat
  deriving DecidableEq, Repr

/-- The configuration tree: `get<T>(key, dflt)` yields the stored value, or `dflt`
when the key is absent. -/
structure Config where
  nat : String → Option Nat
  float : String → Option F32

/-- The call `config.get<size_t>(key, dflt)` (also `get<unsigned>`). -/
def Config.getNat (c : Config) (key : String) (dflt : Nat) : Nat := (c.nat key).getD dflt

/-- The call `config.get<float>(key, dflt)`. -/
def Config.getFloat (c : Config) (key : String) (dflt : F32) : F32 := (c.float key).getD dflt

/-- The metric `FeatureSimilarity`: its `POLARITY` constant and `apply` on two
referenced features. -/
structure FeatureSimilarity where
  POLARITY : Int
  apply : FeaturePtr → FeaturePtr → F32

/-- The query view `KGraphIndex::SearchOracle`: `size()` and `operator()(i)`, which is
undefined (`none`) when `i` is not a position of the entry vector. -/
structure SearchOracle where
  size : Nat
  dist : Nat → Option F32

/-- What a search path leaves behind: the returned count `L` and the contents it
wrote to the `ids` and `dists` buffers. -/
structure SearchReturn where
  L : Nat
  ids : List Nat
  dists : List F32
  deriving DecidableEq, Repr

/-- The kgraph library as used by the index, over graphs of type `G`.
`build es p` is `KGraph::create()` followed by `build(oracle, p, NULL)` with `oracle`
the `IndexOracle` over the entries `es`; `load` reads a graph file's content and is
`none` when `KGraph::load` throws; `save` is the content written in `FORMAT_NO_DIST`;
`search` is `KGraph::search`; `scan` is the brute-force `SearchOracle::search`. -/
structure KGraphEngine (G : Type) where
  build : List Entry → IndexParams → G
  load : String → Option G
  save : G → String
  search : G → SearchOracle → SearchParams → SearchReturn
  scan : SearchOracle → Nat → F32 → SearchReturn

/-- The file system: file name to content, the first binding of a name counts. -/
abbrev FS := List (String × String)

/-- Content of the file `path`, if it exists. -/
def FS.read (fs : FS) (path : String) : Option String := List.lookup path fs

/-- The file system after `path` is (over)written with `content`. -/
def FS.write (fs : FS) (path : String) (content : String) : FS := (path, content) :: fs

/-- The state of a `KGraphIndex`: the members of the class, and `default_K`,
`default_R` of the base class `Index`. -/
structure KGraphIndex (G : Type) where
  default_K : Int
  default_R : F32
  linear : Bool
  min_index_size : Nat
  indexed_size : Nat
  entries : List Entry
  index_params : IndexParams
  search_params : SearchParams
  kg_index : Option G
  deriving DecidableEq

namespace KGraphIndex

variable {G : Type}

/-- The constructor `KGraphIndex(config, linear_)`.  `default_K` and `default_R` are what
the base class `Index(config)` sets up; `ip0` and `sp0` are the default-constructed
`KGraph::IndexParams` and `KGraph::SearchParams`. -/
def create (config : Config) (default_K : Int) (default_R : F32)
    (ip0 : IndexParams) (sp0 : SearchParams) (linear_ : Bool) : KGraphIndex G :=
  { default_K := default_K
    default_R := default_R
    linear := linear_
    min_index_size := config.getNat "donkey.kgraph.min" 10000
    indexed_size := 0
    entries := []
    index_params :=
      { iterations := config.getNat "donkey.kgraph.index.iterations" ip0.iterations
        L := config.getNat "donkey.kgraph.index.L" ip0.L
        K := config.getNat "donkey.kgraph.index.K" ip0.K
        S := config.getNat "donkey.kgraph.index.S" ip0.S
        R := config.getNat "donkey.kgraph.index.R" ip0.R
        controls := config.getNat "donkey.kgraph.index.controls" ip0.controls
        seed := config.getNat "donkey.kgraph.index.seed" ip0.seed
        delta := config.getFloat "donkey.kgraph.index.delta" ip0.delta
        recall_ := config.getFloat "donkey.kgraph.index.recall" ip0.recall_
        prune := config.getNat "donkey.kgraph.index.prune" ip0.prune }
    search_params :=
      { K := config.getNat "donkey.kgraph.search.K" sp0.K
        M := config.getNat "donkey.kgraph.search.M" sp0.M
        P := config.getNat "donkey.kgraph.search.P" sp0.P
        T := config.getNat "donkey.kgraph.search.T" sp0.T
        epsilon := config.getFloat "donkey.kgraph.search.epsilon" sp0.epsilon
        seed := config.getNat "donkey.kgraph.search.seed" sp0.seed }
    kg_index := none }

/-- The method `insert`: one entry is pushed at the back of `entries`. -/
def insert (s : KGraphIndex G) (object tag : Nat) (feature : FeaturePtr) : KGraphIndex G :=
  { s with entries := s.entries ++ [{ object := object, tag := tag, feature := feature }] }

/-- The method `clear`: the graph is deleted and `entries` is emptied. -/
def clear (s : KGraphIndex G) : KGraphIndex G :=
  { s with kg_index := none, entries := [] }

/-- The method `rebuild`. -/
def rebuild (eng : KGraphEngine G) (s : KGraphIndex G) : KGraphIndex G :=
  if s.linear then
    { s with indexed_size := s.entries.length }
  else if s.entries.length = s.indexed_size then
    s
  else
    let kg : Option G :=
      if s.entries.length ≥ s.min_index_size then
        some (eng.build s.entries s.index_params)
      else none
    { s with indexed_size := s.entries.length, kg_index := kg }

end KGraphIndex

/-! ## The metadata file -/

/-- White space skipped by formatted stream input. -/
def isSpace (c : Char) : Bool :=
  c.toNat == 32 || (9 ≤ c.toNat && c.toNat ≤ 13)

/-- A decimal digit. -/
def isDigit (c : Char) : Bool := 48 ≤ c.toNat && c.toNat ≤ 57

/-- The number a run of decimal digits denotes. -/
def digitsValue (ds : List Char) : Nat :=
  ds.foldl (fun acc c => acc * 10 + (c.toNat - 48)) 0

/-- The statement `is >> sz` on a freshly opened stream with content `text`, `sz` being a
`size_t` of 64 bits initialised to 0: white space is skipped, an optional sign and the
decimal digits that follow are read; without a digit the extraction fails and `sz` is 0;
a value too large gives the largest `size_t`; a minus sign negates modulo `2^64`.
Nothing is thrown in any case. -/
def extractSize (text : String) : Nat :=
  let cs := text.data.dropWhile isSpace
  let signed : Bool × List Char :=
    match cs with
    | c :: rest => if c.toNat == 43 then (false, rest) else if c.toNat == 45 then (true, rest)
                   else (false, cs)
    | [] => (false, cs)
  let ds := signed.2.takeWhile isDigit
  if ds.isEmpty then 0
  else
    let v := digitsValue ds
    if v ≥ 2 ^ 64 then 2 ^ 64 - 1
    else if signed.1 then (2 ^ 64 - v) % 2 ^ 64
    else v

/-- The decimal digits of `n`, most significant first (`fuel` bounds the recursion). -/
def decimalCore : Nat → Nat → List Char → List Char
  | 0, _, acc => acc
  | fuel + 1, n, acc =>
    let acc1 := Char.ofNat (48 + n % 10) :: acc
    if n / 10 = 0 then acc1 else decimalCore fuel (n / 10) acc1

/-- The text `os << indexed_size << std::endl` writes: the decimal digits and a newline. -/
def metaText (n : Nat) : String := ⟨decimalCore (n + 1) n [Char.ofNat 10]⟩

namespace KGraphIndex

variable {G : Type}

/-- The try block of `recover`: the graph loaded from `path` and the count read from
`path + ".meta"`, or `none` when `KGraph::load` throws (as it does for a file that does
not exist) or the metadata file cannot be opened (`if (!is) throw 0`). -/
def tryLoad (eng : KGraphEngine G) (fs : FS) (path : String) : Option (G × Nat) :=
  match (FS.read fs path).bind eng.load with
  | none => none
  | some kg =>
    match FS.read fs (path ++ ".meta") with
    | none => none
    | some text => some (kg, extractSize text)

/-- The method `recover`. -/
def recover (eng : KGraphEngine G) (fs : FS) (path : String) (s : KGraphIndex G) :
    KGraphIndex G :=
  match tryLoad eng fs path with
  | some (kg, sz) => { s with indexed_size := sz, kg_index := some kg }
  | none => rebuild eng s

/-- The method `snapshot`: the file system it leaves (the index itself is `const`). -/
def snapshot (eng : KGraphEngine G) (fs : FS) (path : String) (s : KGraphIndex G) : FS :=
  match s.kg_index with
  | some kg => FS.write (FS.write fs path (eng.save kg)) (path ++ ".meta") (metaText s.indexed_size)
  | none => fs

end KGraphIndex

/-! ## Search -/

/-- How a call of `search` ends: `threw` when the buffers cannot be allocated (a negative
`K` turned into a `size_t`), `undefined` when the result loop reads outside a buffer or
outside `entries`, `fatal` when `BOOST_VERIFY(indexed_size == entries.size())` fails (in
a build where the macro checks its argument), `ok ms` otherwise. -/
inductive SearchOutcome where
  | threw
  | undefined
  | fatal
  | ok (ms : List Match)
  deriving DecidableEq, Repr

/-- The call `matches->resize(L)`. -/
def resizeMatches (ms : List Match) (L : Nat) : List Match :=
  ms.take L ++ List.replicate (L - ms.length) default

/-- The result loop of `search` from position `i` on, `n` rounds to go: round `i` reads
`ids[i]` and `dists[i]` from the buffers of `K` cells (zero-initialised, filled by the
search path with `r.ids` and `r.dists`) and `entries[ids[i]]`, and assigns match `i`. -/
def fillMatches (entries : List Entry) (K : Nat) (r : SearchReturn) :
    Nat → Nat → List Match → Option (List Match)
  | 0, _, ms => some ms
  | n + 1, i, ms =>
    if i < K then
      match entries[r.ids.getD i 0]? with
      | some e =>
        fillMatches entries K r n (i + 1)
          (ms.set i { object := e.object, tag := e.tag, distance := r.dists.getD i F32.zero })
      | none => none
    else none

namespace KGraphIndex

variable {G : Type}

/-- The query view `SearchOracle(this, query)`. -/
def searchOracle (sim : FeatureSimilarity) (s : KGraphIndex G) (query : FeaturePtr) :
    SearchOracle :=
  { size := s.indexed_size % 2 ^ 32
    dist := fun i => (s.entries[i]?).map (fun e => sim.apply e.feature query) }

/-- The neighbour count `search` works with: `hint_K`, or `default_K` when `hint_K <= 0`. -/
def searchK (s : KGraphIndex G) (sp : SearchRequest) : Int :=
  if sp.hint_K ≤ 0 then s.default_K else sp.hint_K

/-- The radius of `search` before the sign is normalised: `hint_R`, or `default_R` when
`!isnormal(hint_R)`. -/
def searchR (s : KGraphIndex G) (sp : SearchRequest) : F32 :=
  if !sp.hint_R.isnormal then s.default_R else sp.hint_R

/-- The parameters `search` hands to the search path: `K` and the radius, negated when
`POLARITY >= 0`, as `epsilon`. -/
def searchParams (sim : FeatureSimilarity) (s : KGraphIndex G) (sp : SearchRequest) :
    SearchParams :=
  let R := searchR s sp
  let R := if sim.POLARITY ≥ 0 then R.mulNegOne else R
  { s.search_params with K := (searchK s sp).toNat % 2 ^ 32, epsilon := R }

/-- The dispatch of `search`: the graph engine when a graph is present, the brute-force
scan of the query view otherwise. -/
def searchPath (sim : FeatureSimilarity) (eng : KGraphEngine G) (s : KGraphIndex G)
    (query : FeaturePtr) (sp : SearchRequest) : SearchReturn :=
  let params := searchParams sim s sp
  match s.kg_index with
  | some kg => eng.search kg (searchOracle sim s query) params
  | none => eng.scan (searchOracle sim s query) params.K params.epsilon

/-- The method `search`; `matches0` is the content of the output vector `matches` before
the call. -/
def search (sim : FeatureSimilarity) (eng : KGraphEngine G) (s : KGraphIndex G)
    (query : FeaturePtr) (sp : SearchRequest) (matches0 : List Match) : SearchOutcome :=
  let cleared : List Match := matches0.take 0
  let K := searchK s sp
  if K < 0 then .threw
  else
    let r := searchPath sim eng s query sp
    match fillMatches s.entries K.toNat r r.L 0 (resizeMatches cleared r.L) with
    | none => .undefined
    | some ms => if s.indexed_size = s.entries.length then .ok ms else .fatal

end KGraphIndex

/-! ## Call sequences -/

/-- The index together with the files it reads and writes. -/
structure World (G : Type) where
  index : KGraphIndex G
  fs : FS

/-- One event: a call of a mutating or persisting method, or a change of the files made
from outside the index (`files`). -/
inductive Op where
  | insert (object tag : Nat) (feature : FeaturePtr)
  | clear
  | rebuild
  | recover (path : String)
  | snapshot (path : String)
  | files (fs : FS)
  deriving DecidableEq, Repr

/-- The effect of one event. -/
def step {G : Type} (eng : KGraphEngine G) (w : World G) : Op → World G
  | .insert o t f => { w with index := w.index.insert o t f }
  | .clear => { w with index := w.index.clear }
  | .rebuild => { w with index := w.index.rebuild eng }
  | .recover path => { w with index := w.index.recover eng w.fs path }
  | .snapshot path => { w with fs := w.index.snapshot eng w.fs path }
  | .files fs => { w with fs := fs }

/-- The effect of a sequence of events, first to last. -/
def run {G : Type} (eng : KGraphEngine G) (w : World G) (ops : List Op) : World G :=
  ops.foldl (step eng) w

/-- One call of a sequence that uses neither `clear` nor `recover`. -/
inductive Call where
  | insert (object tag : Nat) (feature : FeaturePtr)
  | rebuild
  | snapshot (path : String)
  | search (query : FeaturePtr) (sp : SearchRequest)
  deriving DecidableEq, Repr

/-- The effect of one call; `none` when a `search` ends the process (the fatal path) or
has no defined behaviour.  A `search` that returns or throws leaves the index as it is. -/
def stepCall {G : Type} (sim : FeatureSimilarity) (eng : KGraphEngine G) (w : World G) :
    Call → Option (World G)
  | .insert o t f => some { w with index := w.index.insert o t f }
  | .rebuild => some { w with index := w.index.rebuild eng }
  | .snapshot path => some { w with fs := w.index.snapshot eng w.fs path }
  | .search query sp =>
    match w.index.search sim eng query sp [] with
    | .fatal => none
    | .undefined => none
    | _ => some w

/-- The effect of a sequence of calls, first to last. -/
def runCalls {G : Type} (sim : FeatureSimilarity) (eng : KGraphEngine G) :
    World G → List Call → Option (World G)
  | w, [] => some w
  | w, c :: rest => (stepCall sim eng w c).bind (fun w1 => runCalls sim eng w1 rest)

/-! ## A concrete engine for examples -/

/-- A graph of the example engine: what it was built over, or the file it came from. -/
inductive DemoGraph where
  | built (entries : List Entry)
  | loaded (content : String)
  deriving DecidableEq, Repr

/-- An engine to run the operations on examples: files starting with `KNNGRAPH` load,
searches return no match. -/
def demoEngine : KGraphEngine DemoGraph :=
  { build := fun es _ => .built es
    load := fun c => if "KNNGRAPH".data.isPrefixOf c.data then some (.loaded c) else none
    save := fun g =>
      match g with
      | .built es => "KNNGRAPH" ++ metaText es.length
      | .loaded c => c
    search := fun _ _ _ => ⟨0, [], []⟩
    scan := fun _ _ _ => ⟨0, [], []⟩ }

/-- Puts the candidate `c` into a list kept in ascending order of distance, behind the
candidates that are not farther than `c`. -/
def insertByDist (c : Nat × F32) : List (Nat × F32) → List (Nat × F32)
  | [] => [c]
  | d :: rest => if c.2.lt d.2 then c :: d :: rest else d :: insertByDist c rest

/-- Modelled from the spec: the brute-force search routine of the query view
(`oracle.search(K, epsilon, ids, dists)`, inherited from the kgraph library and not part
of the source file).  The spec describes it as an exhaustive scan that computes the
distance to every visible entry and enforces the same `(K, R)` semantics as the graph
engine, whose convention is smaller is closer, with results in ascending order of distance:
every position below `size()` whose distance is at most `epsilon` is a candidate, the
candidates are ranked by ascending distance and the first `K` are returned. -/
def bruteForceScan (o : SearchOracle) (K : Nat) (epsilon : F32) : SearchReturn :=
  let cands : List (Nat × F32) :=
    (List.range o.size).filterMap (fun i =>
      match o.dist i with
      | some d => if d.le epsilon then some (i, d) else none
      | none => none)
  let ranked := (cands.foldl (fun acc c => insertByDist c acc) []).take K
  { L := ranked.length, ids := ranked.map Prod.fst, dists := ranked.map Prod.snd }

/-- The example engine with the brute-force scan of the query view. -/
def scanEngine : KGraphEngine DemoGraph :=
  { demoEngine with scan := bruteForceScan }

/-- Whether the score `a` is better than the score `b` under the metric's polarity: larger
when `POLARITY >= 0`, smaller otherwise. -/
def better (sim : FeatureSimilarity) (a b : F32) : Bool :=
  if sim.POLARITY ≥ 0 then b.lt a else a.lt b

/-- Puts the match `m` into a list kept best first, behind the matches that are not worse. -/
def insertBest (sim : FeatureSimilarity) (m : Match) : List Match → List Match
  | [] => [m]
  | d :: rest =>
    if better sim m.distance d.distance then m :: d :: rest
    else d :: insertBest sim m rest

/-- The reference ranking of the spec: every entry with its true score against the query,
best first under the metric's polarity. -/
def referenceRanking (sim : FeatureSimilarity) (query : FeaturePtr) (entries : List Entry) :
    List Match :=
  (entries.map (fun e => (⟨e.object, e.tag, sim.apply e.feature query⟩ : Match))).foldl
    (fun acc m => insertBest sim m acc) []

/-- An example metric: the feature at address 100 scores 1.0 against every query, every
other feature 2.0. -/
def demoMetric (polarity : Int) : FeatureSimilarity :=
  { POLARITY := polarity
    apply := fun f _ => if f = 100 then F32.one else F32.two }

/-- The configuration that sets `donkey.kgraph.min` to `n` and nothing else. -/
def demoConfig (n : Nat) : Config :=
  { nat := fun key => if key = "donkey.kgraph.min" then some n else none
    float := fun _ => none }

/-- Default parameters of the graph construction for the examples. -/
def demoIndexParams : IndexParams :=
  ⟨30, 100, 25, 10, 100, 100, 1998, F32.zero, F32.one, 0⟩

/-- Default parameters of the graph search for the examples. -/
def demoSearchParams : SearchParams := ⟨20, 0, 100, 1, F32.zero, 1998⟩

/-- A freshly constructed example index with build threshold `n`. -/
def demoIndex (n : Nat) (linear_ : Bool) : KGraphIndex DemoGraph :=
  KGraphIndex.create (demoConfig n) 1 F32.one demoIndexParams demoSearchParams linear_

/-! ## Trace conditions used by the invariants -/

/-- Inserts the entries `es` one after the other. -/
def insertAll {G : Type} (s : KGraphIndex G) (es : List Entry) : KGraphIndex G :=
  es.foldl (fun t e => t.insert e.object e.tag e.feature) s

/-- The example index in linear mode holding the entries `(7, 0)` and `(8, 1)` with the
features at addresses 100 and 101, before `rebuild`. -/
def demoLinearFilled : KGraphIndex DemoGraph :=
  insertAll (KGraphIndex.create (demoConfig 10000) 1 F32.one demoIndexParams
    demoSearchParams true) [⟨7, 0, 100⟩, ⟨8, 1, 101⟩]

/-- The index `demoLinearFilled` after `rebuild`. -/
def demoLinear : KGraphIndex DemoGraph := demoLinearFilled.rebuild scanEngine

/-- An event that is no `clear` and, when it is a `recover` whose files load, reads a
count not above the number of entries. -/
def countInRange {G : Type} (eng : KGraphEngine G) (w : World G) : Op → Bool
  | .clear => false
  | .recover path =>
    match KGraphIndex.tryLoad eng w.fs path with
    | some (_, sz) => decide (sz ≤ w.index.entries.length)
    | none => true
  | _ => true

/-- Every event of the sequence satisfies `countInRange` in the state it is run in. -/
def countsInRange {G : Type} (eng : KGraphEngine G) : World G → List Op → Bool
  | _, [] => true
  | w, op :: rest => countInRange eng w op && countsInRange eng (step eng w op) rest

/-- An event that is no `clear` and, when it is a `recover`, one whose files do not load
(so that it falls back to `rebuild`). -/
def noLoad {G : Type} (eng : KGraphEngine G) (w : World G) : Op → Bool
  | .clear => false
  | .recover path => (KGraphIndex.tryLoad eng w.fs path).isNone
  | _ => true

/-- Every event of the sequence satisfies `noLoad` in the state it is run in. -/
def noLoads {G : Type} (eng : KGraphEngine G) : World G → List Op → Bool
  | _, [] => true
  | w, op :: rest => noLoad eng w op && noLoads eng (step eng w op) rest

/-- The index after the entries `es` are inserted into a fresh approximate-mode index and
`rebuild` is called. -/
def rebuiltAfter {G : Type} (eng : KGraphEngine G) (config : Config) (dK : Int) (dR : F32)
    (ip0 : IndexParams) (sp0 : SearchParams) (es : List Entry) : KGraphIndex G :=
  (insertAll (KGraphIndex.create config dK dR ip0 sp0 false) es).rebuild eng

/-- The index `rebuiltAfter` after one more `insert` and a second `rebuild`. -/
def rebuiltAgain {G : Type} (eng : KGraphEngine G) (config : Config) (dK : Int) (dR : F32)
    (ip0 : IndexParams) (sp0 : SearchParams) (es : List Entry) (o t : Nat) (f : FeaturePtr) :
    KGraphIndex G :=
  ((rebuiltAfter eng config dK dR ip0 sp0 es).insert o t f).rebuild eng

/-- The index obtained by `snapshot(path)` on `s`, then, on a fresh index into which the
entries of `s` have been inserted, `recover(path)`. -/
def recovered {G : Type} (eng : KGraphEngine G) (s : KGraphIndex G) (fs : FS) (path : String)
    (config : Config) (dK : Int) (dR : F32) (ip0 : IndexParams) (sp0 : SearchParams)
    (linear_ : Bool) : KGraphIndex G :=
  (insertAll (KGraphIndex.create config dK dR ip0 sp0 linear_) s.entries).recover eng
    (s.snapshot eng fs path) path

/-- The state invariant behind the threshold rule: approximate mode, threshold `N ≥ 1`,
no more indexed entries than entries, and a graph exactly when the indexed entries reach
the threshold. -/
def ThresholdInv {G : Type} (N : Nat) (s : KGraphIndex G) : Prop :=
  s.linear = false ∧ s.min_index_size = N ∧ 1 ≤ N ∧
    s.indexed_size ≤ s.entries.length ∧
    (s.kg_index.isSome = true ↔ N ≤ s.indexed_size)

/-- The state invariant of call sequences without `clear` and `recover`: no more indexed
entries than entries, and a graph only in approximate mode with the threshold reached by
the indexed entries. -/
def GraphInv {G : Type} (s : KGraphIndex G) : Prop :=
  s.indexed_size ≤ s.entries.length ∧
    (s.kg_index.isSome = true → s.linear = false ∧ s.min_index_size ≤ s.indexed_size)

/-! ## Basic facts about the operations -/

section Basic

variable {G : Type}

theorem rebuild_indexed_size (eng : KGraphEngine G) (s : KGraphIndex G) :
    (s.rebuild eng).indexed_size = s.entries.length := by
  unfold KGraphIndex.rebuild
  split_ifs with h1 h2 <;> first | rfl | exact h2.symm

theorem rebuild_entries (eng : KGraphEngine G) (s : KGraphIndex G) :
    (s.rebuild eng).entries = s.entries := by
  unfold KGraphIndex.rebuild
  split_ifs <;> rfl

theorem rebuild_linear (eng : KGraphEngine G) (s : KGraphIndex G) :
    (s.rebuild eng).linear = s.linear := by
  unfold KGraphIndex.rebuild
  split_ifs <;> rfl

theorem rebuild_min_index_size (eng : KGraphEngine G) (s : KGraphIndex G) :
    (s.rebuild eng).min_index_size = s.min_index_size := by
  unfold KGraphIndex.rebuild
  split_ifs <;> rfl

theorem rebuild_of_linear (eng : KGraphEngine G) (s : KGraphIndex G) (h : s.linear = true) :
    (s.rebuild eng).kg_index = s.kg_index := by
  unfold KGraphIndex.rebuild
  simp [h]

theorem recover_of_tryLoad_none (eng : KGraphEngine G) (fs : FS) (path : String)
    (s : KGraphIndex G) (h : KGraphIndex.tryLoad eng fs path = none) :
    s.recover eng fs path = s.rebuild eng := by
  unfold KGraphIndex.recover
  rw [h]

theorem recover_of_tryLoad_some (eng : KGraphEngine G) (fs : FS) (path : String)
    (s : KGraphIndex G) (kg : G) (sz : Nat)
    (h : KGraphIndex.tryLoad eng fs path = some (kg, sz)) :
    s.recover eng fs path = { s with indexed_size := sz, kg_index := some kg } := by
  unfold KGraphIndex.recover
  rw [h]

theorem recover_entries (eng : KGraphEngine G) (fs : FS) (path : String)
    (s : KGraphIndex G) : (s.recover eng fs path).entries = s.entries := by
  unfold KGraphIndex.recover
  split
  · rfl
  · exact rebuild_entries eng s

theorem run_nil (eng : KGraphEngine G) (w : World G) : run eng w [] = w := rfl

theorem run_cons (eng : KGraphEngine G) (w : World G) (op : Op) (ops : List Op) :
    run eng w (op :: ops) = run eng (step eng w op) ops := rfl

/-- An invariant of the index that every admitted event keeps holds after every admitted
sequence of events. -/
theorem run_invariant (eng : KGraphEngine G) (P : KGraphIndex G → Prop)
    (ok : World G → Op → Bool)
    (hstep : ∀ w op, ok w op = true → P w.index → P (step eng w op).index) :
    ∀ (ops : List Op) (w : World G) (oks : World G → List Op → Bool),
      (∀ w1 op rest, oks w1 (op :: rest) = (ok w1 op && oks (step eng w1 op) rest)) →
      oks w ops = true → P w.index → P (run eng w ops).index := by
  intro ops
  induction ops with
  | nil => intro w oks _ _ h; exact h
  | cons op rest ih =>
    intro w oks hoks hok h
    rw [run_cons]
    rw [hoks, Bool.and_eq_true] at hok
    exact ih (step eng w op) oks hoks hok.2 (hstep w op hok.1 h)

theorem fillMatches_isSome (entries : List Entry) (K : Nat) (r : SearchReturn) :
    ∀ (n i : Nat) (ms : List Match), i + n ≤ K →
      (∀ j, i ≤ j → j < i + n → r.ids.getD j 0 < entries.length) →
      ∃ out, fillMatches entries K r n i ms = some out := by
  intro n
  induction n with
  | zero => intro i ms _ _; exact ⟨ms, rfl⟩
  | succ n ih =>
    intro i ms hK hids
    have hi : i < K := by omega
    have hid : r.ids.getD i 0 < entries.length := hids i (Nat.le_refl i) (by omega)
    obtain ⟨e, he⟩ : ∃ e, entries[r.ids.getD i 0]? = some e :=
      ⟨entries[r.ids.getD i 0], List.getElem?_eq_getElem hid⟩
    simp only [fillMatches, hi, if_true, he]
    exact ih (i + 1) _ (by omega) (fun j h1 h2 => hids j (by omega) (by omega))

theorem search_fatal_imp (sim : FeatureSimilarity) (eng : KGraphEngine G)
    (s : KGraphIndex G) (query : FeaturePtr) (sp : SearchRequest) (ms0 : List Match)
    (h : s.search sim eng query sp ms0 = .fatal) : s.indexed_size ≠ s.entries.length := by
  intro heq
  unfold KGraphIndex.search at h
  simp only at h
  split_ifs at h
  split at h <;> cases h

theorem search_of_valid (sim : FeatureSimilarity) (eng : KGraphEngine G)
    (s : KGraphIndex G) (query : FeaturePtr) (sp : SearchRequest) (ms0 : List Match)
    (hK : 0 ≤ s.searchK sp)
    (hL : (s.searchPath sim eng query sp).L ≤ (s.searchK sp).toNat)
    (hids : ∀ i, i < (s.searchPath sim eng query sp).L →
      (s.searchPath sim eng query sp).ids.getD i 0 < s.entries.length) :
    ∃ ms, s.search sim eng query sp ms0 =
      if s.indexed_size = s.entries.length then .ok ms else .fatal := by
  obtain ⟨out, hout⟩ := fillMatches_isSome s.entries (s.searchK sp).toNat
    (s.searchPath sim eng query sp) (s.searchPath sim eng query sp).L 0
    (resizeMatches (ms0.take 0) (s.searchPath sim eng query sp).L) (by omega)
    (fun j _ h2 => hids j (by omega))
  refine ⟨out, ?_⟩
  unfold KGraphIndex.search
  simp only [not_lt.mpr hK, if_false, hout]

theorem rebuild_of_changed (eng : KGraphEngine G) (s : KGraphIndex G)
    (hlin : s.linear = false) (hne : s.entries.length ≠ s.indexed_size) :
    (s.rebuild eng).kg_index =
      if s.min_index_size ≤ s.entries.length then some (eng.build s.entries s.index_params)
      else none := by
  unfold KGraphIndex.rebuild
  simp only [hlin, hne, if_false, Bool.false_eq_true, ge_iff_le]

theorem rebuild_of_unchanged (eng : KGraphEngine G) (s : KGraphIndex G)
    (hlin : s.linear = false) (heq : s.entries.length = s.indexed_size) :
    s.rebuild eng = s := by
  unfold KGraphIndex.rebuild
  simp only [hlin, heq, if_true, if_false, Bool.false_eq_true]

theorem rebuild_keeps_thresholdInv (eng : KGraphEngine G) (N : Nat) (s : KGraphIndex G)
    (h : ThresholdInv N s) : ThresholdInv N (s.rebuild eng) := by
  obtain ⟨hlin, hmin, hN, hle, hiff⟩ := h
  by_cases heq : s.entries.length = s.indexed_size
  · rw [rebuild_of_unchanged eng s hlin heq]
    exact ⟨hlin, hmin, hN, hle, hiff⟩
  · refine ⟨by rw [rebuild_linear, hlin], by rw [rebuild_min_index_size, hmin], hN, ?_, ?_⟩
    · rw [rebuild_indexed_size, rebuild_entries]
    · rw [rebuild_of_changed eng s hlin heq, rebuild_indexed_size, hmin]
      split_ifs with hge <;> simp [hge]

theorem step_keeps_thresholdInv (eng : KGraphEngine G) (N : Nat) (w : World G) (op : Op)
    (hok : noLoad eng w op = true) (h : ThresholdInv N w.index) :
    ThresholdInv N (step eng w op).index := by
  cases op with
  | insert o t f =>
    obtain ⟨hlin, hmin, hN, hle, hiff⟩ := h
    refine ⟨hlin, hmin, hN, ?_, hiff⟩
    simp only [step, KGraphIndex.insert, List.length_append, List.length_singleton]
    omega
  | clear => simp [noLoad] at hok
  | rebuild => exact rebuild_keeps_thresholdInv eng N w.index h
  | recover path =>
    simp only [noLoad, Option.isNone_iff_eq_none] at hok
    simp only [step]
    rw [recover_of_tryLoad_none eng w.fs path w.index hok]
    exact rebuild_keeps_thresholdInv eng N w.index h
  | snapshot path => exact h
  | files fs => exact h

theorem insertAll_eq (s : KGraphIndex G) (es : List Entry) :
    insertAll s es = { s with entries := s.entries ++ es } := by
  induction es generalizing s with
  | nil => simp [insertAll]
  | cons e rest ih =>
    have h : insertAll s (e :: rest) = insertAll (s.insert e.object e.tag e.feature) rest := rfl
    rw [h, ih]
    simp [KGraphIndex.insert]

theorem path_ne_meta (path : String) : path ≠ path ++ ".meta" := by
  intro h
  have hl := congrArg String.length h
  rw [String.length_append] at hl
  have h5 : ".meta".length = 5 := by decide
  omega

theorem read_write_same (fs : FS) (path content : String) :
    FS.read (FS.write fs path content) path = some content := by
  simp [FS.read, FS.write, List.lookup]

theorem read_write_other (fs : FS) (path other content : String) (h : other ≠ path) :
    FS.read (FS.write fs path content) other = FS.read fs other := by
  have hb : (other == path) = false := by simpa using h
  simp [FS.read, FS.write, List.lookup, hb]

theorem snapshot_of_none (eng : KGraphEngine G) (fs : FS) (path : String)
    (s : KGraphIndex G) (h : s.kg_index = none) : s.snapshot eng fs path = fs := by
  unfold KGraphIndex.snapshot
  rw [h]

theorem snapshot_reads (eng : KGraphEngine G) (fs : FS) (path : String)
    (s : KGraphIndex G) (kg : G) (h : s.kg_index = some kg) :
    FS.read (s.snapshot eng fs path) path = some (eng.save kg) ∧
    FS.read (s.snapshot eng fs path) (path ++ ".meta") = some (metaText s.indexed_size) := by
  unfold KGraphIndex.snapshot
  rw [h]
  refine ⟨?_, read_write_same _ _ _⟩
  rw [read_write_other _ _ _ _ (path_ne_meta path), read_write_same]

theorem searchPath_of_none (sim : FeatureSimilarity) (eng : KGraphEngine G)
    (s : KGraphIndex G) (query : FeaturePtr) (sp : SearchRequest) (h : s.kg_index = none) :
    s.searchPath sim eng query sp =
      eng.scan (s.searchOracle sim query) (s.searchParams sim sp).K
        (s.searchParams sim sp).epsilon := by
  unfold KGraphIndex.searchPath
  rw [h]

theorem searchPath_of_some (sim : FeatureSimilarity) (eng : KGraphEngine G)
    (s : KGraphIndex G) (query : FeaturePtr) (sp : SearchRequest) (kg : G)
    (h : s.kg_index = some kg) :
    s.searchPath sim eng query sp =
      eng.search kg (s.searchOracle sim query) (s.searchParams sim sp) := by
  unfold KGraphIndex.searchPath
  rw [h]

theorem rebuiltAfter_facts (eng : KGraphEngine G) (config : Config) (dK : Int) (dR : F32)
    (ip0 : IndexParams) (sp0 : SearchParams) (es : List Entry)
    (hlen : es.length < config.getNat "donkey.kgraph.min" 10000) :
    (rebuiltAfter eng config dK dR ip0 sp0 es).kg_index = none ∧
    (rebuiltAfter eng config dK dR ip0 sp0 es).entries = es ∧
    (rebuiltAfter eng config dK dR ip0 sp0 es).indexed_size = es.length ∧
    (rebuiltAfter eng config dK dR ip0 sp0 es).linear = false ∧
    (rebuiltAfter eng config dK dR ip0 sp0 es).min_index_size =
      config.getNat "donkey.kgraph.min" 10000 := by
  have hent : (insertAll (KGraphIndex.create (G := G) config dK dR ip0 sp0 false) es).entries
      = es := by
    rw [insertAll_eq]; simp [KGraphIndex.create]
  have hlin : (insertAll (KGraphIndex.create (G := G) config dK dR ip0 sp0 false) es).linear
      = false := by
    rw [insertAll_eq]; rfl
  have hmin : (insertAll (KGraphIndex.create (G := G) config dK dR ip0 sp0 false)
      es).min_index_size = config.getNat "donkey.kgraph.min" 10000 := by
    rw [insertAll_eq]; rfl
  have hkg : (insertAll (KGraphIndex.create (G := G) config dK dR ip0 sp0 false) es).kg_index
      = none := by
    rw [insertAll_eq]; rfl
  have hidx : (insertAll (KGraphIndex.create (G := G) config dK dR ip0 sp0 false)
      es).indexed_size = 0 := by
    rw [insertAll_eq]; rfl
  refine ⟨?_, ?_, ?_, ?_, ?_⟩
  · unfold rebuiltAfter
    by_cases h0 : (insertAll (KGraphIndex.create (G := G) config dK dR ip0 sp0 false)
        es).entries.length =
        (insertAll (KGraphIndex.create (G := G) config dK dR ip0 sp0 false) es).indexed_size
    · rw [rebuild_of_unchanged eng _ hlin h0, hkg]
    · rw [rebuild_of_changed eng _ hlin h0, hmin, hent, if_neg (by omega)]
  · unfold rebuiltAfter; rw [rebuild_entries, hent]
  · unfold rebuiltAfter; rw [rebuild_indexed_size, hent]
  · unfold rebuiltAfter; rw [rebuild_linear, hlin]
  · unfold rebuiltAfter; rw [rebuild_min_index_size, hmin]

theorem digit_char_facts : ∀ d, d < 10 →
    (Char.ofNat (48 + d)).toNat - 48 = d ∧ isDigit (Char.ofNat (48 + d)) = true := by
  decide

theorem decimalCore_append (fuel : Nat) : ∀ (n : Nat) (acc : List Char),
    decimalCore fuel n acc = decimalCore fuel n [] ++ acc := by
  induction fuel with
  | zero => intro n acc; rfl
  | succ fuel ih =>
    intro n acc
    simp only [decimalCore]
    split_ifs
    · rfl
    · rw [ih (n / 10) (Char.ofNat (48 + n % 10) :: acc),
        ih (n / 10) [Char.ofNat (48 + n % 10)]]
      simp

theorem decimalCore_digits (fuel : Nat) : ∀ (n : Nat),
    ∀ c ∈ decimalCore fuel n [], isDigit c = true := by
  induction fuel with
  | zero => intro n c hc; simp [decimalCore] at hc
  | succ fuel ih =>
    intro n c hc
    simp only [decimalCore] at hc
    have hd := (digit_char_facts (n % 10) (Nat.mod_lt n (by decide))).2
    split_ifs at hc
    · simp only [List.mem_singleton] at hc
      rw [hc]; exact hd
    · rw [decimalCore_append] at hc
      simp only [List.mem_append, List.mem_singleton] at hc
      rcases hc with hc | hc
      · exact ih (n / 10) c hc
      · rw [hc]; exact hd

theorem decimalCore_ne_nil (fuel n : Nat) : decimalCore (fuel + 1) n [] ≠ [] := by
  simp only [decimalCore]
  split_ifs
  · simp
  · rw [decimalCore_append]
    simp

theorem digitsValue_append_singleton (ds : List Char) (c : Char) :
    digitsValue (ds ++ [c]) = digitsValue ds * 10 + (c.toNat - 48) := by
  simp [digitsValue, List.foldl_append]

theorem digitsValue_decimalCore (fuel : Nat) : ∀ (n : Nat), n < fuel →
    digitsValue (decimalCore fuel n []) = n := by
  induction fuel with
  | zero => intro n h; omega
  | succ fuel ih =>
    intro n hn
    have hd := (digit_char_facts (n % 10) (Nat.mod_lt n (by decide))).1
    simp only [decimalCore]
    split_ifs with h0
    · have : digitsValue [Char.ofNat (48 + n % 10)] = (Char.ofNat (48 + n % 10)).toNat - 48 := by
        simp [digitsValue]
      rw [this, hd]
      omega
    · rw [decimalCore_append, digitsValue_append_singleton, hd, ih (n / 10) (by omega)]
      omega

theorem takeWhile_digits (ds rest : List Char) (hd : ∀ c ∈ ds, isDigit c = true)
    (hrest : ∀ c, rest.head? = some c → isDigit c = false) :
    (ds ++ rest).takeWhile isDigit = ds := by
  induction ds with
  | nil =>
    cases rest with
    | nil => rfl
    | cons c cs => simp [List.takeWhile, hrest c rfl]
  | cons d ds ih =>
    have h1 : isDigit d = true := hd d (List.mem_cons_self d ds)
    rw [List.cons_append, List.takeWhile_cons, h1, if_pos rfl,
      ih (fun c hc => hd c (List.mem_cons_of_mem d hc))]

theorem digit_not_space_or_sign (c : Char) (h : isDigit c = true) :
    isSpace c = false ∧ (c.toNat == 43) = false ∧ (c.toNat == 45) = false := by
  simp only [isDigit, Bool.and_eq_true, decide_eq_true_eq] at h
  refine ⟨?_, ?_, ?_⟩
  · simp only [isSpace, Bool.or_eq_false_iff, Bool.and_eq_false_iff, beq_eq_false_iff_ne,
      decide_eq_false_iff_not]
    omega
  · simp only [beq_eq_false_iff_ne]; omega
  · simp only [beq_eq_false_iff_ne]; omega

theorem extractSize_digits (ds rest : List Char) (hne : ds ≠ [])
    (hd : ∀ c ∈ ds, isDigit c = true)
    (hrest : ∀ c, rest.head? = some c → isDigit c = false)
    (hv : digitsValue ds < 2 ^ 64) :
    extractSize ⟨ds ++ rest⟩ = digitsValue ds := by
  cases ds with
  | nil => exact absurd rfl hne
  | cons d ds1 =>
    obtain ⟨hsp, h43, h45⟩ := digit_not_space_or_sign d (hd d (List.mem_cons_self d ds1))
    have htw := takeWhile_digits (d :: ds1) rest hd hrest
    simp only [List.cons_append] at htw
    unfold extractSize
    simp only [List.cons_append, List.dropWhile_cons, hsp, h43, h45, htw,
      List.isEmpty_cons, Bool.false_eq_true, if_false, not_le.mpr hv, ge_iff_le]

theorem extractSize_metaText (n : Nat) (hn : n < 2 ^ 64) : extractSize (metaText n) = n := by
  have hshape : metaText n = ⟨decimalCore (n + 1) n [] ++ [Char.ofNat 10]⟩ := by
    unfold metaText
    rw [decimalCore_append]
  have hval := digitsValue_decimalCore (n + 1) n (Nat.lt_succ_self n)
  rw [hshape, extractSize_digits _ _ (decimalCore_ne_nil n n) (decimalCore_digits (n + 1) n)
    (by intro c hc; simp only [List.head?_cons, Option.some.injEq] at hc; rw [← hc]; decide)
    (by rw [hval]; exact hn), hval]

theorem tryLoad_snapshot (eng : KGraphEngine G) (s : KGraphIndex G) (fs : FS)
    (path : String) (g g1 : G) (hg : s.kg_index = some g)
    (hsize : s.indexed_size < 2 ^ 64) (hload : eng.load (eng.save g) = some g1) :
    KGraphIndex.tryLoad eng (s.snapshot eng fs path) path = some (g1, s.indexed_size) := by
  obtain ⟨h1, h2⟩ := snapshot_reads eng fs path s g hg
  unfold KGraphIndex.tryLoad
  rw [h1, h2]
  simp only [Option.some_bind, hload, extractSize_metaText s.indexed_size hsize]

theorem searchR_idem (s : KGraphIndex G) (sp : SearchRequest) :
    s.searchR { sp with hint_R := s.searchR sp } = s.searchR sp := by
  unfold KGraphIndex.searchR
  by_cases h : sp.hint_R.isnormal = true
  · simp [h]
  · simp only [h, Bool.not_eq_true] at *
    simp [h]

theorem fillMatches_spec (entries : List Entry) (K : Nat) (r : SearchReturn) :
    ∀ (n i : Nat) (ms out : List Match), fillMatches entries K r n i ms = some out →
      i + n ≤ ms.length →
      out.length = ms.length ∧ (0 < n → i + n ≤ K) ∧
      (∀ j, i ≤ j → j < i + n → ∃ e, entries[r.ids.getD j 0]? = some e ∧
        out[j]? = some ⟨e.object, e.tag, r.dists.getD j F32.zero⟩) ∧
      (∀ j, j < i → out[j]? = ms[j]?) := by
  intro n
  induction n with
  | zero =>
    intro i ms out h _
    simp only [fillMatches, Option.some.injEq] at h
    subst h
    exact ⟨rfl, fun h0 => absurd h0 (Nat.lt_irrefl 0), fun j h1 h2 => by omega, fun _ _ => rfl⟩
  | succ n ih =>
    intro i ms out h hlen
    simp only [fillMatches] at h
    split_ifs at h with hi
    split at h
    · rename_i e he
      obtain ⟨h1, h2, h3, h4⟩ := ih (i + 1) _ out h (by rw [List.length_set]; omega)
      rw [List.length_set] at h1
      refine ⟨h1, fun _ => ?_, ?_, ?_⟩
      · by_cases hn : 0 < n
        · have := h2 hn; omega
        · omega
      · intro j hj1 hj2
        by_cases hj : j = i
        · subst hj
          refine ⟨e, he, ?_⟩
          rw [h4 j (Nat.lt_succ_self j), List.getElem?_set]
          simp only [if_true]
          rw [if_pos (by omega)]
        · exact h3 j (by omega) (by omega)
      · intro j hj
        rw [h4 j (by omega), List.getElem?_set_ne (by omega)]
    · cases h

theorem resizeMatches_length (ms : List Match) (L : Nat) :
    (resizeMatches ms L).length = L := by
  simp only [resizeMatches, List.length_append, List.length_take, List.length_replicate]
  omega

/-- What an `ok` outcome of `search` says about the call. -/
theorem search_ok_spec (sim : FeatureSimilarity) (eng : KGraphEngine G)
    (s : KGraphIndex G) (query : FeaturePtr) (sp : SearchRequest) (ms0 ms : List Match)
    (h : s.search sim eng query sp ms0 = .ok ms) :
    s.indexed_size = s.entries.length ∧ 0 ≤ s.searchK sp ∧
    fillMatches s.entries (s.searchK sp).toNat (s.searchPath sim eng query sp)
      (s.searchPath sim eng query sp).L 0
      (resizeMatches (ms0.take 0) (s.searchPath sim eng query sp).L) = some ms := by
  unfold KGraphIndex.search at h
  simp only at h
  split_ifs at h with hK heq
  · split at h
    · cases h
    · rename_i out hout
      simp only [SearchOutcome.ok.injEq] at h
      subst h
      exact ⟨heq, by omega, hout⟩
  · split at h <;> cases h

/-- The list the result loop of `search` builds: one match for each position below `L`,
taken from `entries[ids[i]]` and `dists[i]`. -/
theorem search_loop_spec (sim : FeatureSimilarity) (eng : KGraphEngine G)
    (s : KGraphIndex G) (query : FeaturePtr) (sp : SearchRequest) (ms0 out : List Match)
    (h : fillMatches s.entries (s.searchK sp).toNat (s.searchPath sim eng query sp)
      (s.searchPath sim eng query sp).L 0
      (resizeMatches (ms0.take 0) (s.searchPath sim eng query sp).L) = some out) :
    out.length = (s.searchPath sim eng query sp).L ∧
    (s.searchPath sim eng query sp).L ≤ (s.searchK sp).toNat ∧
    (∀ i, i < (s.searchPath sim eng query sp).L →
      ∃ e, s.entries[(s.searchPath sim eng query sp).ids.getD i 0]? = some e ∧
        out[i]? = some ⟨e.object, e.tag,
          (s.searchPath sim eng query sp).dists.getD i F32.zero⟩) := by
  obtain ⟨h1, h2, h3, _⟩ := fillMatches_spec _ _ _ _ _ _ _ h
    (by rw [resizeMatches_length]; omega)
  rw [resizeMatches_length] at h1
  refine ⟨h1, ?_, fun i hi => h3 i (Nat.zero_le i) (by omega)⟩
  by_cases hL : 0 < (s.searchPath sim eng query sp).L
  · have := h2 hL; omega
  · omega

theorem search_indep_matches (sim : FeatureSimilarity) (eng : KGraphEngine G)
    (s : KGraphIndex G) (query : FeaturePtr) (sp : SearchRequest) (ms0 : List Match) :
    s.search sim eng query sp ms0 = s.search sim eng query sp [] := by
  unfold KGraphIndex.search
  simp only [List.take_zero, List.take_nil]

theorem searchOracle_size_le (sim : FeatureSimilarity) (s : KGraphIndex G)
    (query : FeaturePtr) : (s.searchOracle sim query).size ≤ s.indexed_size := by
  unfold KGraphIndex.searchOracle
  exact Nat.mod_le _ _

theorem rebuild_noop (eng : KGraphEngine G) (s : KGraphIndex G)
    (h : s.entries.length = s.indexed_size) : s.rebuild eng = s := by
  cases hlin : s.linear with
  | false => exact rebuild_of_unchanged eng s hlin h
  | true =>
    unfold KGraphIndex.rebuild
    rw [if_pos hlin, h]

theorem rebuild_keeps_graphInv (eng : KGraphEngine G) (s : KGraphIndex G)
    (h : GraphInv s) : GraphInv (s.rebuild eng) := by
  obtain ⟨hle, hg⟩ := h
  refine ⟨by rw [rebuild_indexed_size, rebuild_entries], ?_⟩
  rw [rebuild_linear, rebuild_min_index_size, rebuild_indexed_size]
  cases hlin : s.linear with
  | true =>
    rw [rebuild_of_linear eng s hlin]
    intro hsome
    have := (hg hsome).1
    rw [hlin] at this
    cases this
  | false =>
    by_cases heq : s.entries.length = s.indexed_size
    · rw [rebuild_of_unchanged eng s hlin heq]
      intro hsome
      exact ⟨rfl, by rw [heq]; exact (hg hsome).2⟩
    · rw [rebuild_of_changed eng s hlin heq]
      split_ifs with hge
      · intro _; exact ⟨rfl, hge⟩
      · intro hsome; cases hsome

theorem stepCall_keeps_graphInv (sim : FeatureSimilarity) (eng : KGraphEngine G)
    {b : Bool} {N : Nat} (w w1 : World G) (c : Call)
    (hstep : stepCall sim eng w c = some w1)
    (h : GraphInv w.index ∧ w.index.linear = b ∧ w.index.min_index_size = N) :
    GraphInv w1.index ∧ w1.index.linear = b ∧ w1.index.min_index_size = N := by
  cases c with
  | insert o t f =>
    simp only [stepCall, Option.some.injEq] at hstep
    subst hstep
    obtain ⟨⟨hle, hg⟩, hb, hN⟩ := h
    refine ⟨⟨?_, hg⟩, hb, hN⟩
    simp only [KGraphIndex.insert, List.length_append, List.length_singleton]
    omega
  | rebuild =>
    simp only [stepCall, Option.some.injEq] at hstep
    subst hstep
    exact ⟨rebuild_keeps_graphInv eng w.index h.1,
      by rw [← h.2.1]; exact rebuild_linear eng w.index,
      by rw [← h.2.2]; exact rebuild_min_index_size eng w.index⟩
  | snapshot path =>
    simp only [stepCall, Option.some.injEq] at hstep
    subst hstep
    exact h
  | search query sp =>
    simp only [stepCall] at hstep
    split at hstep
    · cases hstep
    · cases hstep
    · simp only [Option.some.injEq] at hstep
      subst hstep
      exact h

theorem runCalls_keeps_graphInv (sim : FeatureSimilarity) (eng : KGraphEngine G)
    (b : Bool) (N : Nat) : ∀ (calls : List Call) (w w1 : World G),
      runCalls sim eng w calls = some w1 →
      GraphInv w.index ∧ w.index.linear = b ∧ w.index.min_index_size = N →
      GraphInv w1.index ∧ w1.index.linear = b ∧ w1.index.min_index_size = N := by
  intro calls
  induction calls with
  | nil =>
    intro w w1 hrun h
    simp only [runCalls, Option.some.injEq] at hrun
    subst hrun
    exact h
  | cons c rest ih =>
    intro w w1 hrun h
    simp only [runCalls] at hrun
    cases hs : stepCall sim eng w c with
    | none => rw [hs] at hrun; cases hrun
    | some w2 =>
      rw [hs] at hrun
      exact ih w2 w1 hrun (stepCall_keeps_graphInv sim eng w w2 c hs h)

theorem search_threw_iff (sim : FeatureSimilarity) (eng : KGraphEngine G)
    (s : KGraphIndex G) (query : FeaturePtr) (sp : SearchRequest) (ms0 : List Match) :
    s.search sim eng query sp ms0 = .threw ↔ s.searchK sp < 0 := by
  unfold KGraphIndex.search
  simp only
  constructor
  · intro h
    by_contra hK
    rw [if_neg hK] at h
    split at h
    · cases h
    · split_ifs at h
  · intro hK
    rw [if_pos hK]

end Basic

/-! ## Invariants of the index state -/

section Claims

variable {G : Type}

theorem step_keeps_visible_le (eng : KGraphEngine G) (w : World G) (op : Op)
    (hok : countInRange eng w op = true)
    (h : w.index.indexed_size ≤ w.index.entries.length) :
    (step eng w op).index.indexed_size ≤ (step eng w op).index.entries.length := by
  cases op with
  | insert o t f =>
    simp only [step, KGraphIndex.insert, List.length_append, List.length_singleton]
    omega
  | clear => simp [countInRange] at hok
  | rebuild =>
    simp only [step]
    rw [rebuild_indexed_size, rebuild_entries]
  | recover path =>
    simp only [step]
    cases hl : KGraphIndex.tryLoad eng w.fs path with
    | none =>
      rw [recover_of_tryLoad_none eng w.fs path w.index hl, rebuild_indexed_size,
        rebuild_entries]
    | some p =>
      obtain ⟨kg, sz⟩ := p
      rw [recover_of_tryLoad_some eng w.fs path w.index kg sz hl]
      simp only [countInRange, hl, decide_eq_true_eq] at hok
      exact hok
  | snapshot path => exact h
  | files fs => exact h

/-- C1 (counterexample): `indexed_size` exceeds the number of entries after a `recover`
that reads the count 5 from the metadata file into an empty index, and after `clear` on an
index whose single entry had been indexed. -/
theorem C1_counterexample :
    ¬ ((run demoEngine ⟨demoIndex 10000 false, [("g", "KNNGRAPH"), ("g.meta", "5")]⟩
          [.recover "g"]).index.indexed_size ≤
        (run demoEngine ⟨demoIndex 10000 false, [("g", "KNNGRAPH"), ("g.meta", "5")]⟩
          [.recover "g"]).index.entries.length) ∧
    ¬ ((run demoEngine ⟨demoIndex 10000 false, []⟩
          [.insert 7 0 100, .rebuild, .clear]).index.indexed_size ≤
        (run demoEngine ⟨demoIndex 10000 false, []⟩
          [.insert 7 0 100, .rebuild, .clear]).index.entries.length) := by
  decide

/-- C1 (amended): from a freshly constructed index, in either mode and for every
threshold, after any sequence of `insert`, `rebuild`, `snapshot` and `recover` calls and
outside changes of the files, in which every `recover` that loads its files reads a count
not above the number of entries, `indexed_size` is at most the number of entries. -/
theorem C1_visible_le_entries (eng : KGraphEngine G) (config : Config) (dK : Int)
    (dR : F32) (ip0 : IndexParams) (sp0 : SearchParams) (linear_ : Bool) (fs0 : FS)
    (ops : List Op)
    (hops : countsInRange eng ⟨KGraphIndex.create config dK dR ip0 sp0 linear_, fs0⟩ ops
      = true) :
    (run eng ⟨KGraphIndex.create config dK dR ip0 sp0 linear_, fs0⟩ ops).index.indexed_size ≤
      (run eng ⟨KGraphIndex.create config dK dR ip0 sp0 linear_, fs0⟩
        ops).index.entries.length :=
  run_invariant eng (fun s => s.indexed_size ≤ s.entries.length) (countInRange eng)
    (step_keeps_visible_le eng) ops _ (countsInRange eng) (fun _ _ _ => rfl) hops
    (Nat.zero_le _)

/-- C1 (witness): a sequence with inserts, rebuilds, a snapshot, a failing and a loading
`recover`. -/
theorem C1_visible_le_entries_witness :
    countsInRange demoEngine
        ⟨KGraphIndex.create (demoConfig 1) 1 F32.one demoIndexParams demoSearchParams false, []⟩
        [.insert 7 0 100, .recover "g", .insert 8 1 101, .rebuild, .snapshot "g",
          .insert 9 2 102, .recover "g"] = true ∧
      (run demoEngine
        ⟨KGraphIndex.create (demoConfig 1) 1 F32.one demoIndexParams demoSearchParams false, []⟩
        [.insert 7 0 100, .recover "g", .insert 8 1 101, .rebuild, .snapshot "g",
          .insert 9 2 102, .recover "g"]).index.indexed_size ≤
      (run demoEngine
        ⟨KGraphIndex.create (demoConfig 1) 1 F32.one demoIndexParams demoSearchParams false, []⟩
        [.insert 7 0 100, .recover "g", .insert 8 1 101, .rebuild, .snapshot "g",
          .insert 9 2 102, .recover "g"]).index.entries.length :=
  ⟨by decide, C1_visible_le_entries demoEngine (demoConfig 1) 1 F32.one demoIndexParams
    demoSearchParams false [] _ (by decide)⟩

/-- C2 (the code at the failing input): `clear` empties the entry vector and drops the
graph of every state but leaves `indexed_size` as it was; on an index whose single entry
had been indexed, `indexed_size` is 1 after `clear`, not 0. -/
theorem C2_clear_keeps_indexed_size :
    (∀ (H : Type) (s : KGraphIndex H),
      s.clear.entries = [] ∧ s.clear.kg_index = none ∧
        s.clear.indexed_size = s.indexed_size) ∧
    (run demoEngine ⟨demoIndex 10000 false, []⟩
      [.insert 7 0 100, .rebuild, .clear]).index.entries = [] ∧
    (run demoEngine ⟨demoIndex 10000 false, []⟩
      [.insert 7 0 100, .rebuild, .clear]).index.kg_index = none ∧
    (run demoEngine ⟨demoIndex 10000 false, []⟩
      [.insert 7 0 100, .rebuild, .clear]).index.indexed_size = 1 :=
  ⟨fun _ _ => ⟨rfl, rfl, rfl⟩, by decide, by decide, by decide⟩

/-- C3 (the code at the failing input): on a fresh index in linear mode, `recover` of a
graph file that loads, with its metadata file present, installs the loaded graph. -/
theorem C3_linear_recover_installs_graph :
    (run demoEngine ⟨demoIndex 10000 true, [("g", "KNNGRAPH"), ("g.meta", "0\n")]⟩
      [.recover "g"]).index.linear = true ∧
    (run demoEngine ⟨demoIndex 10000 true, [("g", "KNNGRAPH"), ("g.meta", "0\n")]⟩
      [.recover "g"]).index.kg_index = some (DemoGraph.loaded "KNNGRAPH") := by
  decide

/-- C4 (counterexample): with `default_K` -1 and `hint_K` 0, `search` on an index made by
`rebuild` and one `insert` throws when it allocates its buffers; it does not reach the
assertion although `indexed_size` differs from the number of entries. -/
theorem C4_counterexample :
    KGraphIndex.search ⟨1, fun _ _ => F32.zero⟩ demoEngine
      (((KGraphIndex.create (demoConfig 10000) (-1) F32.one demoIndexParams
        demoSearchParams false).rebuild demoEngine).insert 7 0 100) 5 ⟨0, F32.one⟩ []
      = .threw ∧
    ¬ (KGraphIndex.search ⟨1, fun _ _ => F32.zero⟩ demoEngine
      (((KGraphIndex.create (demoConfig 10000) (-1) F32.one demoIndexParams
        demoSearchParams false).rebuild demoEngine).insert 7 0 100) 5 ⟨0, F32.one⟩ []
      = .fatal ↔
      (((KGraphIndex.create (demoConfig 10000) (-1) F32.one demoIndexParams
        demoSearchParams false).rebuild demoEngine).insert 7 0 100).indexed_size ≠
      (((KGraphIndex.create (demoConfig 10000) (-1) F32.one demoIndexParams
        demoSearchParams false).rebuild demoEngine).insert 7 0 100).entries.length) := by
  decide

/-- C4 (amended): `search` ends in the fatal path only when `indexed_size` differs from the
number of entries, and never when the two are equal; a negative `K` after default
substitution makes it throw instead.  When `K` is not negative and the search path returns
a count within the buffers and ids of stored entries, `search` ends in the fatal path
exactly when `indexed_size` differs from the number of entries; so it does on a state
made by one `insert` after a `rebuild`, and it returns its matches when the two are
equal. -/
theorem C4_search_fatal_iff (sim : FeatureSimilarity) (eng : KGraphEngine G)
    (s : KGraphIndex G) (query : FeaturePtr) (sp : SearchRequest) (ms0 : List Match) :
    (s.search sim eng query sp ms0 = .fatal → s.indexed_size ≠ s.entries.length) ∧
    (s.indexed_size = s.entries.length → s.search sim eng query sp ms0 ≠ .fatal) ∧
    (s.searchK sp < 0 → s.search sim eng query sp ms0 = .threw) ∧
    (0 ≤ s.searchK sp →
      (s.searchPath sim eng query sp).L ≤ (s.searchK sp).toNat →
      (∀ i, i < (s.searchPath sim eng query sp).L →
        (s.searchPath sim eng query sp).ids.getD i 0 < s.entries.length) →
      (s.search sim eng query sp ms0 = .fatal ↔ s.indexed_size ≠ s.entries.length) ∧
      (∀ (s0 : KGraphIndex G) (o t : Nat) (f : FeaturePtr),
        s = (s0.rebuild eng).insert o t f → s.search sim eng query sp ms0 = .fatal) ∧
      (s.indexed_size = s.entries.length →
        ∃ ms, s.search sim eng query sp ms0 = .ok ms)) := by
  refine ⟨search_fatal_imp sim eng s query sp ms0,
    fun heq hf => search_fatal_imp sim eng s query sp ms0 hf heq,
    (search_threw_iff sim eng s query sp ms0).mpr, ?_⟩
  intro hK hL hids
  obtain ⟨ms, hms⟩ := search_of_valid sim eng s query sp ms0 hK hL hids
  have hiff : s.search sim eng query sp ms0 = .fatal ↔
      s.indexed_size ≠ s.entries.length := by
    constructor
    · exact search_fatal_imp sim eng s query sp ms0
    · intro hne
      rw [hms, if_neg hne]
  refine ⟨hiff, ?_, ?_⟩
  · intro s0 o t f hs
    apply hiff.mpr
    subst hs
    simp only [KGraphIndex.insert, List.length_append, List.length_singleton]
    rw [rebuild_indexed_size, rebuild_entries]
    omega
  · intro heq
    exact ⟨ms, by rw [hms, if_pos heq]⟩

/-- C4 (witness): one insert after a rebuild of the empty example index, then a search
with `hint_K` 3. -/
theorem C4_search_fatal_iff_witness :
    KGraphIndex.search ⟨1, fun _ _ => F32.zero⟩ demoEngine
      (((demoIndex 10000 false).rebuild demoEngine).insert 7 0 100) 5 ⟨3, F32.one⟩ []
      = .fatal :=
  ((C4_search_fatal_iff ⟨1, fun _ _ => F32.zero⟩ demoEngine
    (((demoIndex 10000 false).rebuild demoEngine).insert 7 0 100) 5 ⟨3, F32.one⟩ []).2.2.2
    (by decide) (by decide) (by decide)).2.1 (demoIndex 10000 false) 7 0 100 rfl

/-- C5: after `rebuild`, in either mode and for every threshold, `indexed_size` equals the
number of entries and the entries are those from before; a `search` that follows does not
end in the fatal path. -/
theorem C5_rebuild_covers_entries (eng : KGraphEngine G) (s : KGraphIndex G) :
    (s.rebuild eng).indexed_size = (s.rebuild eng).entries.length ∧
    (s.rebuild eng).entries = s.entries ∧
    (∀ (sim : FeatureSimilarity) (query : FeaturePtr) (sp : SearchRequest)
      (ms0 : List Match), (s.rebuild eng).search sim eng query sp ms0 ≠ .fatal) := by
  have h1 : (s.rebuild eng).indexed_size = (s.rebuild eng).entries.length := by
    rw [rebuild_indexed_size, rebuild_entries]
  exact ⟨h1, rebuild_entries eng s,
    fun sim query sp ms0 hf => search_fatal_imp sim eng _ query sp ms0 hf h1⟩

/-- C6 (counterexample): with threshold 0 a `rebuild` of the fresh index returns at once
and leaves no graph although the 0 entries reach the threshold; with threshold 2, after a
`recover` that loaded a graph and the count 0 into the empty index, `rebuild` returns at
once and keeps the graph although there are fewer entries than the threshold. -/
theorem C6_counterexample :
    ¬ ((run demoEngine ⟨demoIndex 0 false, []⟩ [.rebuild]).index.kg_index.isSome = true ↔
        (run demoEngine ⟨demoIndex 0 false, []⟩ [.rebuild]).index.min_index_size ≤
          (run demoEngine ⟨demoIndex 0 false, []⟩ [.rebuild]).index.entries.length) ∧
    ¬ ((run demoEngine ⟨demoIndex 2 false, [("g", "KNNGRAPH"), ("g.meta", "0\n")]⟩
          [.recover "g", .rebuild]).index.kg_index.isSome = true ↔
        (run demoEngine ⟨demoIndex 2 false, [("g", "KNNGRAPH"), ("g.meta", "0\n")]⟩
          [.recover "g", .rebuild]).index.min_index_size ≤
          (run demoEngine ⟨demoIndex 2 false, [("g", "KNNGRAPH"), ("g.meta", "0\n")]⟩
            [.recover "g", .rebuild]).index.entries.length) := by
  decide

/-- C6 (amended): in approximate mode a `rebuild` that finds the number of entries different
from `indexed_size` leaves the graph built over all entries when they reach the threshold
and no graph when they do not, and a `rebuild` that finds the two equal changes nothing;
hence, from a fresh index with a threshold of at least 1, after any sequence of `insert`,
`rebuild`, `snapshot` and failing `recover` calls, the state after a further `rebuild` has
a graph exactly when the entries reach the threshold. -/
theorem C6_rebuild_graph_iff_threshold (eng : KGraphEngine G) (config : Config) (dK : Int)
    (dR : F32) (ip0 : IndexParams) (sp0 : SearchParams) (fs0 : FS) (ops : List Op) :
    (∀ s : KGraphIndex G, s.linear = false → s.entries.length ≠ s.indexed_size →
      (s.rebuild eng).kg_index =
        if s.min_index_size ≤ s.entries.length then
          some (eng.build s.entries s.index_params)
        else none) ∧
    (∀ s : KGraphIndex G, s.linear = false → s.entries.length = s.indexed_size →
      s.rebuild eng = s) ∧
    (1 ≤ config.getNat "donkey.kgraph.min" 10000 →
      noLoads eng ⟨KGraphIndex.create config dK dR ip0 sp0 false, fs0⟩ ops = true →
      (((run eng ⟨KGraphIndex.create config dK dR ip0 sp0 false, fs0⟩
          ops).index.rebuild eng).kg_index.isSome = true ↔
        config.getNat "donkey.kgraph.min" 10000 ≤
          (run eng ⟨KGraphIndex.create config dK dR ip0 sp0 false, fs0⟩
            ops).index.entries.length)) := by
  refine ⟨rebuild_of_changed eng, rebuild_of_unchanged eng, ?_⟩
  intro hN hops
  have hinv : ThresholdInv (config.getNat "donkey.kgraph.min" 10000)
      (run eng ⟨KGraphIndex.create config dK dR ip0 sp0 false, fs0⟩ ops).index :=
    run_invariant eng (ThresholdInv (config.getNat "donkey.kgraph.min" 10000))
      (noLoad eng) (step_keeps_thresholdInv eng _) ops _ (noLoads eng)
      (fun _ _ _ => rfl) hops
      ⟨rfl, rfl, hN, Nat.zero_le _, by
        simp only [KGraphIndex.create, Option.isSome_none, Bool.false_eq_true, false_iff]
        omega⟩
  obtain ⟨_, _, _, _, hiff⟩ := rebuild_keeps_thresholdInv eng _ _ hinv
  rw [hiff, rebuild_indexed_size]

/-- C6 (witness): threshold 2; two inserts with a rebuild after each, a failing recover
and a snapshot. -/
theorem C6_rebuild_graph_iff_threshold_witness :
    ((run demoEngine
        ⟨KGraphIndex.create (demoConfig 2) 1 F32.one demoIndexParams demoSearchParams false, []⟩
        [.insert 7 0 100, .rebuild, .insert 8 1 101, .recover "g", .snapshot "g"]
      ).index.rebuild demoEngine).kg_index.isSome = true ↔
      (demoConfig 2).getNat "donkey.kgraph.min" 10000 ≤
        (run demoEngine
          ⟨KGraphIndex.create (demoConfig 2) 1 F32.one demoIndexParams demoSearchParams false,
            []⟩
          [.insert 7 0 100, .rebuild, .insert 8 1 101, .recover "g", .snapshot "g"]
        ).index.entries.length :=
  (C6_rebuild_graph_iff_threshold demoEngine (demoConfig 2) 1 F32.one demoIndexParams
    demoSearchParams []
    [.insert 7 0 100, .rebuild, .insert 8 1 101, .recover "g", .snapshot "g"]).2.2
    (by decide) (by decide)

/-- C7: a fresh approximate-mode index with threshold `N` (at least 1), `N - 1` entries
inserted and `rebuild` called: no graph, `search` goes to the brute-force scan, `snapshot`
leaves the files as they are.  One more entry inserted and `rebuild` called again: the
graph built over all `N` entries, `search` goes to the graph engine with that graph,
`snapshot` writes the saved graph to `path` and the count `N` to `path + ".meta"`. -/
theorem C7_threshold_switch (eng : KGraphEngine G) (config : Config) (dK : Int) (dR : F32)
    (ip0 : IndexParams) (sp0 : SearchParams) (es : List Entry) (o t : Nat) (f : FeaturePtr)
    (N : Nat) (hN : config.getNat "donkey.kgraph.min" 10000 = N)
    (hlen : es.length + 1 = N) :
    ((rebuiltAfter eng config dK dR ip0 sp0 es).kg_index = none ∧
      (∀ (sim : FeatureSimilarity) (query : FeaturePtr) (sp : SearchRequest),
        (rebuiltAfter eng config dK dR ip0 sp0 es).searchPath sim eng query sp =
          eng.scan ((rebuiltAfter eng config dK dR ip0 sp0 es).searchOracle sim query)
            ((rebuiltAfter eng config dK dR ip0 sp0 es).searchParams sim sp).K
            ((rebuiltAfter eng config dK dR ip0 sp0 es).searchParams sim sp).epsilon) ∧
      (∀ (fs : FS) (path : String),
        (rebuiltAfter eng config dK dR ip0 sp0 es).snapshot eng fs path = fs)) ∧
    ((rebuiltAgain eng config dK dR ip0 sp0 es o t f).entries = es ++ [⟨o, t, f⟩] ∧
      (rebuiltAgain eng config dK dR ip0 sp0 es o t f).indexed_size = N ∧
      (rebuiltAgain eng config dK dR ip0 sp0 es o t f).kg_index =
        some (eng.build (es ++ [⟨o, t, f⟩])
          (rebuiltAgain eng config dK dR ip0 sp0 es o t f).index_params) ∧
      (∀ (sim : FeatureSimilarity) (query : FeaturePtr) (sp : SearchRequest),
        (rebuiltAgain eng config dK dR ip0 sp0 es o t f).searchPath sim eng query sp =
          eng.search
            (eng.build (es ++ [⟨o, t, f⟩])
              (rebuiltAgain eng config dK dR ip0 sp0 es o t f).index_params)
            ((rebuiltAgain eng config dK dR ip0 sp0 es o t f).searchOracle sim query)
            ((rebuiltAgain eng config dK dR ip0 sp0 es o t f).searchParams sim sp)) ∧
      (∀ (fs : FS) (path : String),
        FS.read ((rebuiltAgain eng config dK dR ip0 sp0 es o t f).snapshot eng fs path) path
          = some (eng.save (eng.build (es ++ [⟨o, t, f⟩])
              (rebuiltAgain eng config dK dR ip0 sp0 es o t f).index_params)) ∧
        FS.read ((rebuiltAgain eng config dK dR ip0 sp0 es o t f).snapshot eng fs path)
          (path ++ ".meta") = some (metaText N))) := by
  obtain ⟨hkg, hent, hidx, hlin, hmin⟩ :=
    rebuiltAfter_facts eng config dK dR ip0 sp0 es (by omega)
  have hne : ((rebuiltAfter eng config dK dR ip0 sp0 es).insert o t f).entries.length ≠
      ((rebuiltAfter eng config dK dR ip0 sp0 es).insert o t f).indexed_size := by
    simp only [KGraphIndex.insert, List.length_append, List.length_singleton, hent, hidx]
    omega
  have hent2 : ((rebuiltAfter eng config dK dR ip0 sp0 es).insert o t f).entries =
      es ++ [⟨o, t, f⟩] := by
    simp only [KGraphIndex.insert, hent]
  have hip : (rebuiltAgain eng config dK dR ip0 sp0 es o t f).index_params =
      ((rebuiltAfter eng config dK dR ip0 sp0 es).insert o t f).index_params := by
    unfold rebuiltAgain KGraphIndex.rebuild
    split_ifs <;> rfl
  have hkg2 : (rebuiltAgain eng config dK dR ip0 sp0 es o t f).kg_index =
      some (eng.build (es ++ [⟨o, t, f⟩])
        (rebuiltAgain eng config dK dR ip0 sp0 es o t f).index_params) := by
    rw [hip]
    unfold rebuiltAgain
    have hlin2 : ((rebuiltAfter eng config dK dR ip0 sp0 es).insert o t f).linear = false :=
      hlin
    have hmin2 : ((rebuiltAfter eng config dK dR ip0 sp0 es).insert o t f).min_index_size =
        config.getNat "donkey.kgraph.min" 10000 := hmin
    rw [rebuild_of_changed eng _ hlin2 hne, hent2, if_pos]
    rw [hmin2, hN]
    simp only [List.length_append, List.length_singleton]
    omega
  have hidx2 : (rebuiltAgain eng config dK dR ip0 sp0 es o t f).indexed_size = N := by
    unfold rebuiltAgain
    rw [rebuild_indexed_size, hent2]
    simp only [List.length_append, List.length_singleton]
    omega
  refine ⟨⟨hkg, fun sim query sp => searchPath_of_none sim eng _ query sp hkg,
    fun fs path => snapshot_of_none eng fs path _ hkg⟩, ?_, hidx2, hkg2,
    fun sim query sp => searchPath_of_some sim eng _ query sp _ hkg2, ?_⟩
  · unfold rebuiltAgain
    rw [rebuild_entries, hent2]
  · intro fs path
    have h := snapshot_reads eng fs path _ _ hkg2
    rw [hidx2] at h
    exact h

/-- C7 (witness): threshold 3, two entries, then a third. -/
theorem C7_threshold_switch_witness :
    (rebuiltAfter demoEngine (demoConfig 3) 1 F32.one demoIndexParams demoSearchParams
      [⟨7, 0, 100⟩, ⟨8, 1, 101⟩]).kg_index = none ∧
    (rebuiltAgain demoEngine (demoConfig 3) 1 F32.one demoIndexParams demoSearchParams
      [⟨7, 0, 100⟩, ⟨8, 1, 101⟩] 9 2 102).kg_index =
      some (demoEngine.build ([⟨7, 0, 100⟩, ⟨8, 1, 101⟩] ++ [⟨9, 2, 102⟩])
        (rebuiltAgain demoEngine (demoConfig 3) 1 F32.one demoIndexParams demoSearchParams
          [⟨7, 0, 100⟩, ⟨8, 1, 101⟩] 9 2 102).index_params) :=
  ⟨(C7_threshold_switch demoEngine (demoConfig 3) 1 F32.one demoIndexParams
      demoSearchParams [⟨7, 0, 100⟩, ⟨8, 1, 101⟩] 9 2 102 3 (by decide) (by decide)).1.1,
    (C7_threshold_switch demoEngine (demoConfig 3) 1 F32.one demoIndexParams
      demoSearchParams [⟨7, 0, 100⟩, ⟨8, 1, 101⟩] 9 2 102 3 (by decide) (by decide)).2.2.2.1⟩

/-- C8 (the code at the failing input): one entry inserted, the graph file loads and the
metadata file holds `abc`.  `recover` installs the loaded graph with `indexed_size` 0,
whereas `rebuild` on the same state leaves no graph and `indexed_size` 1.  With the graph
file or the metadata file missing, `recover` does give the state `rebuild` gives. -/
theorem C8_recover_unreadable_meta :
    (((demoIndex 10000 false).insert 7 0 100).recover demoEngine
        [("g", "KNNGRAPH"), ("g.meta", "abc")] "g").kg_index
      = some (DemoGraph.loaded "KNNGRAPH") ∧
    (((demoIndex 10000 false).insert 7 0 100).recover demoEngine
        [("g", "KNNGRAPH"), ("g.meta", "abc")] "g").indexed_size = 0 ∧
    (((demoIndex 10000 false).insert 7 0 100).rebuild demoEngine).kg_index = none ∧
    (((demoIndex 10000 false).insert 7 0 100).rebuild demoEngine).indexed_size = 1 ∧
    ((demoIndex 10000 false).insert 7 0 100).recover demoEngine
        [("g", "KNNGRAPH"), ("g.meta", "abc")] "g" ≠
      ((demoIndex 10000 false).insert 7 0 100).rebuild demoEngine ∧
    ((demoIndex 10000 false).insert 7 0 100).recover demoEngine
        [("g.meta", "1\n")] "g" =
      ((demoIndex 10000 false).insert 7 0 100).rebuild demoEngine ∧
    ((demoIndex 10000 false).insert 7 0 100).recover demoEngine
        [("g", "KNNGRAPH")] "g" =
      ((demoIndex 10000 false).insert 7 0 100).rebuild demoEngine := by
  decide

/-- C9: a state with a graph `g` whose `indexed_size` equals its number of entries (a
`size_t`, so below `2^64`), an engine whose `load` accepts the file `save` writes for `g`;
`snapshot(path)`, then `recover(path)` on a fresh index holding the same entries.  The
recovered index has the graph `load` returns for the saved file, `indexed_size` and
entries as in the first index, its `search` does not end in the fatal path and goes to
the graph engine. -/
theorem C9_snapshot_recover_roundtrip (eng : KGraphEngine G) (s : KGraphIndex G) (fs : FS)
    (path : String) (config : Config) (dK : Int) (dR : F32) (ip0 : IndexParams)
    (sp0 : SearchParams) (linear_ : Bool) (g g1 : G)
    (hg : s.kg_index = some g)
    (hvis : s.indexed_size = s.entries.length)
    (hsize : s.entries.length < 2 ^ 64)
    (hload : eng.load (eng.save g) = some g1) :
    (recovered eng s fs path config dK dR ip0 sp0 linear_).kg_index
      = eng.load (eng.save g) ∧
    (recovered eng s fs path config dK dR ip0 sp0 linear_).indexed_size
      = s.entries.length ∧
    (recovered eng s fs path config dK dR ip0 sp0 linear_).entries = s.entries ∧
    (recovered eng s fs path config dK dR ip0 sp0 linear_).indexed_size =
      (recovered eng s fs path config dK dR ip0 sp0 linear_).entries.length ∧
    (∀ (sim : FeatureSimilarity) (query : FeaturePtr) (sp : SearchRequest)
      (ms0 : List Match),
      (recovered eng s fs path config dK dR ip0 sp0 linear_).search sim eng query sp ms0
        ≠ .fatal) ∧
    (∀ (sim : FeatureSimilarity) (query : FeaturePtr) (sp : SearchRequest),
      (recovered eng s fs path config dK dR ip0 sp0 linear_).searchPath sim eng query sp =
        eng.search g1
          ((recovered eng s fs path config dK dR ip0 sp0 linear_).searchOracle sim query)
          ((recovered eng s fs path config dK dR ip0 sp0 linear_).searchParams sim sp)) := by
  have htry := tryLoad_snapshot eng s fs path g g1 hg (by rw [hvis]; exact hsize) hload
  have hrec : recovered eng s fs path config dK dR ip0 sp0 linear_ =
      { insertAll (KGraphIndex.create (G := G) config dK dR ip0 sp0 linear_) s.entries with
        indexed_size := s.indexed_size, kg_index := some g1 } := by
    unfold recovered
    rw [recover_of_tryLoad_some eng _ path _ g1 s.indexed_size htry]
  have hkg : (recovered eng s fs path config dK dR ip0 sp0 linear_).kg_index = some g1 := by
    rw [hrec]
  have hidx : (recovered eng s fs path config dK dR ip0 sp0 linear_).indexed_size =
      s.entries.length := by
    rw [hrec]; exact hvis
  have hent : (recovered eng s fs path config dK dR ip0 sp0 linear_).entries = s.entries := by
    rw [hrec, insertAll_eq]
    simp [KGraphIndex.create]
  have heq : (recovered eng s fs path config dK dR ip0 sp0 linear_).indexed_size =
      (recovered eng s fs path config dK dR ip0 sp0 linear_).entries.length := by
    rw [hidx, hent]
  exact ⟨by rw [hkg, hload], hidx, hent, heq,
    fun sim query sp ms0 hf => search_fatal_imp sim eng _ query sp ms0 hf heq,
    fun sim query sp => searchPath_of_some sim eng _ query sp g1 hkg⟩

/-- C9 (witness): the example index with threshold 1 and one entry, snapshot to `g`, and
recovery into a fresh index with that entry. -/
theorem C9_snapshot_recover_roundtrip_witness :
    (recovered demoEngine
      (rebuiltAgain demoEngine (demoConfig 1) 1 F32.one demoIndexParams demoSearchParams
        [] 7 0 100)
      [] "g" (demoConfig 1) 1 F32.one demoIndexParams demoSearchParams false).indexed_size
      = (rebuiltAgain demoEngine (demoConfig 1) 1 F32.one demoIndexParams demoSearchParams
        [] 7 0 100).entries.length :=
  (C9_snapshot_recover_roundtrip demoEngine
    (rebuiltAgain demoEngine (demoConfig 1) 1 F32.one demoIndexParams demoSearchParams
      [] 7 0 100)
    [] "g" (demoConfig 1) 1 F32.one demoIndexParams demoSearchParams false
    (DemoGraph.built [⟨7, 0, 100⟩]) (DemoGraph.loaded "KNNGRAPH1\n")
    (by decide) (by decide) (by decide) (by decide)).2.1

/-- C10 (counterexample): with `default_R` 1.0, the finite negative hint -1.0 is used as
the radius, and the finite positive (subnormal) hint `2^-149` is replaced by `default_R`. -/
theorem C10_counterexample :
    (F32.negOne.isFinitePositive = false ∧
      (demoIndex 10000 false).searchR ⟨3, F32.negOne⟩ = F32.negOne ∧
      (demoIndex 10000 false).searchR ⟨3, F32.negOne⟩ ≠ (demoIndex 10000 false).default_R) ∧
    (F32.minSubnormal.isFinitePositive = true ∧
      (demoIndex 10000 false).searchR ⟨3, F32.minSubnormal⟩
        = (demoIndex 10000 false).default_R ∧
      (demoIndex 10000 false).searchR ⟨3, F32.minSubnormal⟩ ≠ F32.minSubnormal) := by
  decide

/-- C10 (amended): the radius of `search` before the sign is normalised is `hint_R` when
`hint_R` is a normal float (finite, not zero, not subnormal, of either sign) and
`default_R` in every other case (zero, subnormal, infinite, NaN); the substitution is
silent: `search` ends as it does for the request that carries the substituted radius. -/
theorem C10_radius_substitution (s : KGraphIndex G) (sp : SearchRequest) :
    (sp.hint_R.isnormal = true → s.searchR sp = sp.hint_R) ∧
    (sp.hint_R.isnormal = false → s.searchR sp = s.default_R) ∧
    (sp.hint_R.isnormal = true ↔
      (sp.hint_R.isFinite = true ∧ sp.hint_R.isZero = false ∧
        sp.hint_R.isSubnormal = false)) ∧
    (sp.hint_R.isnormal = false ↔
      (sp.hint_R.isZero = true ∨ sp.hint_R.isSubnormal = true ∨ sp.hint_R.isInf = true ∨
        sp.hint_R.isNaN = true)) ∧
    (∀ (sim : FeatureSimilarity) (eng : KGraphEngine G) (query : FeaturePtr)
      (ms0 : List Match),
      s.search sim eng query sp ms0 =
        s.search sim eng query { sp with hint_R := s.searchR sp } ms0) := by
  refine ⟨?_, ?_, ?_, ?_, ?_⟩
  · intro h
    simp [KGraphIndex.searchR, h]
  · intro h
    simp [KGraphIndex.searchR, h]
  · simp only [F32.isnormal, F32.isFinite, F32.isZero, F32.isSubnormal, Bool.and_eq_true,
      bne_iff_ne, ne_eq, Bool.and_eq_false_iff, beq_eq_false_iff_ne, bne_eq_false_iff_eq]
    constructor
    · rintro ⟨h0, h255⟩
      exact ⟨h255, Or.inl h0, Or.inl h0⟩
    · rintro ⟨h255, hz, hs⟩
      refine ⟨?_, h255⟩
      intro h0
      rcases hz with hz | hz
      · exact hz h0
      · rcases hs with hs | hs
        · exact hs h0
        · exact hz hs
  · simp only [F32.isnormal, F32.isInf, F32.isNaN, F32.isZero, F32.isSubnormal,
      Bool.and_eq_true, bne_iff_ne, ne_eq, Bool.and_eq_false_iff, beq_iff_eq,
      bne_eq_false_iff_eq]
    by_cases hf : sp.hint_R.frac.val = 0 <;> by_cases h0 : sp.hint_R.expo.val = 0 <;>
      by_cases h255 : sp.hint_R.expo.val = 255 <;> simp [hf, h0, h255]
  · intro sim eng query ms0
    have hR := searchR_idem s sp
    unfold KGraphIndex.search KGraphIndex.searchPath KGraphIndex.searchParams
      KGraphIndex.searchK
    rw [hR]

/-- C10 (witness): the hint -1.0 is normal and is the radius used. -/
theorem C10_radius_substitution_witness :
    (demoIndex 10000 false).searchR ⟨3, F32.negOne⟩ = F32.negOne :=
  (C10_radius_substitution (demoIndex 10000 false) ⟨3, F32.negOne⟩).1 (by decide)

/-- C11: the neighbour count of `search` is `hint_K` when `hint_K > 0` and `default_K`
otherwise; a search path is called only when it is not negative (otherwise `search`
throws first), and then it is the `K` handed to the path (an `int`, so it fits the
unsigned field).  `epsilon` is the negation of the radius after default substitution when
`POLARITY >= 0`, and that radius itself when `POLARITY < 0`.  These parameters go to the
scan when there is no graph and to the graph engine otherwise; the distance of match `i`
is `dists[i]` as the search path left it. -/
theorem C11_sign_normalisation (sim : FeatureSimilarity) (eng : KGraphEngine G)
    (s : KGraphIndex G) (query : FeaturePtr) (sp : SearchRequest) :
    (s.searchK sp = if 0 < sp.hint_K then sp.hint_K else s.default_K) ∧
    (∀ ms0 : List Match, s.search sim eng query sp ms0 = .threw ↔ s.searchK sp < 0) ∧
    (0 ≤ s.searchK sp → s.searchK sp < 2 ^ 32 →
      ((s.searchParams sim sp).K : Int) = s.searchK sp) ∧
    (0 ≤ sim.POLARITY → (s.searchParams sim sp).epsilon = (s.searchR sp).neg) ∧
    (sim.POLARITY < 0 → (s.searchParams sim sp).epsilon = s.searchR sp) ∧
    (s.kg_index = none →
      s.searchPath sim eng query sp =
        eng.scan (s.searchOracle sim query) (s.searchParams sim sp).K
          (s.searchParams sim sp).epsilon) ∧
    (∀ kg, s.kg_index = some kg →
      s.searchPath sim eng query sp =
        eng.search kg (s.searchOracle sim query) (s.searchParams sim sp)) ∧
    (∀ (ms0 ms : List Match), s.search sim eng query sp ms0 = .ok ms →
      ∀ i, i < (s.searchPath sim eng query sp).L →
        ∃ e, s.entries[(s.searchPath sim eng query sp).ids.getD i 0]? = some e ∧
          ms[i]? = some ⟨e.object, e.tag,
            (s.searchPath sim eng query sp).dists.getD i F32.zero⟩) := by
  refine ⟨?_, ?_, ?_, ?_, ?_, ?_, ?_, ?_⟩
  · unfold KGraphIndex.searchK
    by_cases h : sp.hint_K ≤ 0
    · rw [if_pos h, if_neg (by omega)]
    · rw [if_neg h, if_pos (by omega)]
  · exact fun ms0 => search_threw_iff sim eng s query sp ms0
  · intro h0 h1
    simp only [KGraphIndex.searchParams]
    have h2 : (s.searchK sp).toNat < 2 ^ 32 := by omega
    rw [Nat.mod_eq_of_lt h2]
    exact Int.toNat_of_nonneg h0
  · intro h
    simp only [KGraphIndex.searchParams, ge_iff_le, h, if_true, F32.mulNegOne, F32.neg]
  · intro h
    simp only [KGraphIndex.searchParams, ge_iff_le, not_le.mpr h, if_false]
  · exact searchPath_of_none sim eng s query sp
  · exact fun kg hkg => searchPath_of_some sim eng s query sp kg hkg
  · intro ms0 ms hok
    exact (search_loop_spec sim eng s query sp ms0 ms
      (search_ok_spec sim eng s query sp ms0 ms hok).2.2).2.2

/-- C11 (witness): `hint_K` 3 and `hint_R` 1.0 under polarity +1 give `K` 3 and `epsilon`
-1.0. -/
theorem C11_sign_normalisation_witness :
    (((demoIndex 10000 false).searchParams ⟨1, fun _ _ => F32.zero⟩ ⟨3, F32.one⟩).K : Int)
      = (demoIndex 10000 false).searchK ⟨3, F32.one⟩ ∧
    ((demoIndex 10000 false).searchParams ⟨1, fun _ _ => F32.zero⟩ ⟨3, F32.one⟩).epsilon
      = ((demoIndex 10000 false).searchR ⟨3, F32.one⟩).neg :=
  ⟨(C11_sign_normalisation ⟨1, fun _ _ => F32.zero⟩ demoEngine (demoIndex 10000 false) 5
      ⟨3, F32.one⟩).2.2.1 (by decide) (by decide),
    (C11_sign_normalisation ⟨1, fun _ _ => F32.zero⟩ demoEngine (demoIndex 10000 false) 5
      ⟨3, F32.one⟩).2.2.2.1 (by decide)⟩

/-- C12: in a state made by `rebuild` and then any inserts, when the search path returns
only ids below the query view's `size()`, every match the result loop of `search` builds
is the entry at a position below the number of entries the index had at that `rebuild`,
so none comes from a later insert; and `search` returns this list only when there was no
later insert. -/
theorem C12_visibility (sim : FeatureSimilarity) (eng : KGraphEngine G)
    (s0 s : KGraphIndex G) (more : List Entry) (query : FeaturePtr) (sp : SearchRequest)
    (ms0 out : List Match)
    (hs : s = insertAll (s0.rebuild eng) more)
    (hpath : ∀ i, i < (s.searchPath sim eng query sp).L →
      (s.searchPath sim eng query sp).ids.getD i 0 < (s.searchOracle sim query).size)
    (hout : fillMatches s.entries (s.searchK sp).toNat (s.searchPath sim eng query sp)
      (s.searchPath sim eng query sp).L 0
      (resizeMatches (ms0.take 0) (s.searchPath sim eng query sp).L) = some out) :
    s.indexed_size = s0.entries.length ∧
    out.length = (s.searchPath sim eng query sp).L ∧
    (∀ i, i < (s.searchPath sim eng query sp).L →
      ∃ e, (s.searchPath sim eng query sp).ids.getD i 0 < s0.entries.length ∧
        s0.entries[(s.searchPath sim eng query sp).ids.getD i 0]? = some e ∧
        out[i]? = some ⟨e.object, e.tag,
          (s.searchPath sim eng query sp).dists.getD i F32.zero⟩) ∧
    (∀ ms, s.search sim eng query sp ms0 = .ok ms → ms = out ∧ more = []) := by
  have hidx : s.indexed_size = s0.entries.length := by
    rw [hs, insertAll_eq]
    exact rebuild_indexed_size eng s0
  have hent : s.entries = s0.entries ++ more := by
    rw [hs, insertAll_eq]
    simp only [rebuild_entries]
  obtain ⟨h1, _, h3⟩ := search_loop_spec sim eng s query sp ms0 out hout
  refine ⟨hidx, h1, ?_, ?_⟩
  · intro i hi
    obtain ⟨e, he, hm⟩ := h3 i hi
    have hlt : (s.searchPath sim eng query sp).ids.getD i 0 < s0.entries.length := by
      have := hpath i hi
      have := searchOracle_size_le sim s query
      omega
    rw [hent, List.getElem?_append_left hlt] at he
    exact ⟨e, hlt, he, hm⟩
  · intro ms hok
    obtain ⟨hvis, _, hfill⟩ := search_ok_spec sim eng s query sp ms0 ms hok
    rw [hout, Option.some.injEq] at hfill
    refine ⟨hfill.symm, ?_⟩
    rw [hidx, hent, List.length_append] at hvis
    exact List.eq_nil_of_length_eq_zero (by omega)

/-- C12 (witness): linear mode, two entries indexed and a third inserted afterwards; the
second match the result loop builds is one of the two indexed entries. -/
theorem C12_visibility_witness :
    ∃ e, ((insertAll (demoLinearFilled.rebuild scanEngine) [⟨9, 2, 102⟩]).searchPath
          (demoMetric (-1)) scanEngine 5 ⟨3, F32.four⟩).ids.getD 1 0
            < demoLinearFilled.entries.length ∧
        demoLinearFilled.entries[((insertAll (demoLinearFilled.rebuild scanEngine)
          [⟨9, 2, 102⟩]).searchPath (demoMetric (-1)) scanEngine 5
            ⟨3, F32.four⟩).ids.getD 1 0]? = some e ∧
        [(⟨7, 0, F32.one⟩ : Match), ⟨8, 1, F32.two⟩][1]? = some ⟨e.object, e.tag,
          ((insertAll (demoLinearFilled.rebuild scanEngine) [⟨9, 2, 102⟩]).searchPath
            (demoMetric (-1)) scanEngine 5 ⟨3, F32.four⟩).dists.getD 1 F32.zero⟩ :=
  (C12_visibility (demoMetric (-1)) scanEngine demoLinearFilled
    (insertAll (demoLinearFilled.rebuild scanEngine) [⟨9, 2, 102⟩])
    [⟨9, 2, 102⟩] 5 ⟨3, F32.four⟩ [] [⟨7, 0, F32.one⟩, ⟨8, 1, F32.two⟩] rfl
    (by decide) (by decide)).2.2.1 1 (by decide)

/-- C13: on a state whose `indexed_size` equals the number of entries, when the search
path returns a count `L` within the `K` buffer cells and ids of stored entries, `search`
returns a list of exactly `L` matches, whatever the output vector held before, and match
`i` has the object and tag of `entries[ids[i]]` and the distance `dists[i]`; with `L = 0`
it returns the empty list. -/
theorem C13_search_materialises (sim : FeatureSimilarity) (eng : KGraphEngine G)
    (s : KGraphIndex G) (query : FeaturePtr) (sp : SearchRequest) (ms0 : List Match)
    (hvis : s.indexed_size = s.entries.length)
    (hK : 0 ≤ s.searchK sp)
    (hL : (s.searchPath sim eng query sp).L ≤ (s.searchK sp).toNat)
    (hids : ∀ i, i < (s.searchPath sim eng query sp).L →
      (s.searchPath sim eng query sp).ids.getD i 0 < s.entries.length) :
    ∃ ms, s.search sim eng query sp ms0 = .ok ms ∧
      ms.length = (s.searchPath sim eng query sp).L ∧
      (∀ i, i < (s.searchPath sim eng query sp).L →
        ∃ e, s.entries[(s.searchPath sim eng query sp).ids.getD i 0]? = some e ∧
          ms[i]? = some ⟨e.object, e.tag,
            (s.searchPath sim eng query sp).dists.getD i F32.zero⟩) ∧
      ((s.searchPath sim eng query sp).L = 0 → ms = []) ∧
      s.search sim eng query sp [] = .ok ms := by
  obtain ⟨ms, hms⟩ := search_of_valid sim eng s query sp ms0 hK hL hids
  rw [if_pos hvis] at hms
  obtain ⟨h1, _, h3⟩ := search_loop_spec sim eng s query sp ms0 ms
    (search_ok_spec sim eng s query sp ms0 ms hms).2.2
  refine ⟨ms, hms, h1, h3, ?_, ?_⟩
  · intro h0
    exact List.eq_nil_of_length_eq_zero (by rw [h1, h0])
  · rw [← search_indep_matches sim eng s query sp ms0]
    exact hms

/-- C13 (witness): the linear example index with its two entries indexed; the search
returns two matches although the output vector held one before. -/
theorem C13_search_materialises_witness :
    ∃ ms, demoLinear.search (demoMetric (-1)) scanEngine 5 ⟨2, F32.four⟩ [⟨1, 2, F32.one⟩]
        = .ok ms ∧
      ms.length = (demoLinear.searchPath (demoMetric (-1)) scanEngine 5 ⟨2, F32.four⟩).L :=
  (C13_search_materialises (demoMetric (-1)) scanEngine demoLinear 5 ⟨2, F32.four⟩
    [⟨1, 2, F32.one⟩] (by decide) (by decide) (by decide) (by decide)).elim
    (fun ms h => ⟨ms, h.1, h.2.1⟩)

/-- C14 (the code at the failing input): linear mode, two entries scoring 1.0 and 2.0,
`K` 2 and the radius -4.0, which excludes neither.  Under polarity +1 `search` returns the
entry scoring 1.0 first, while the reference ranking has the entry scoring 2.0 first;
under polarity -1 (radius 4.0) the two agree. -/
theorem C14_linear_search_order :
    demoLinear.search (demoMetric 1) scanEngine 5 ⟨2, F32.negFour⟩ []
      = .ok [⟨7, 0, F32.one⟩, ⟨8, 1, F32.two⟩] ∧
    referenceRanking (demoMetric 1) 5 demoLinear.entries
      = [⟨8, 1, F32.two⟩, ⟨7, 0, F32.one⟩] ∧
    demoLinear.search (demoMetric (-1)) scanEngine 5 ⟨2, F32.four⟩ []
      = .ok (referenceRanking (demoMetric (-1)) 5 demoLinear.entries) ∧
    referenceRanking (demoMetric (-1)) 5 demoLinear.entries
      = [⟨7, 0, F32.one⟩, ⟨8, 1, F32.two⟩] := by
  decide

/-- C15: `snapshot` leaves the files as they are when there is no graph; with a graph it
writes the saved graph to `path` and the decimal text of `indexed_size`, which reads back
as that number, to `path + ".meta"`, and touches no other file; the index is the same
after the call. -/
theorem C15_snapshot_effect (eng : KGraphEngine G) (s : KGraphIndex G) (fs : FS)
    (path : String) :
    (s.kg_index = none → s.snapshot eng fs path = fs) ∧
    (∀ kg, s.kg_index = some kg →
      s.snapshot eng fs path =
        FS.write (FS.write fs path (eng.save kg)) (path ++ ".meta")
          (metaText s.indexed_size) ∧
      FS.read (s.snapshot eng fs path) path = some (eng.save kg) ∧
      FS.read (s.snapshot eng fs path) (path ++ ".meta")
        = some (metaText s.indexed_size) ∧
      (∀ other, other ≠ path → other ≠ path ++ ".meta" →
        FS.read (s.snapshot eng fs path) other = FS.read fs other) ∧
      (s.indexed_size < 2 ^ 64 → extractSize (metaText s.indexed_size) = s.indexed_size)) ∧
    (∀ w : World G, (step eng w (.snapshot path)).index = w.index) := by
  refine ⟨snapshot_of_none eng fs path s, ?_, fun _ => rfl⟩
  intro kg hkg
  have hsnap : s.snapshot eng fs path =
      FS.write (FS.write fs path (eng.save kg)) (path ++ ".meta")
        (metaText s.indexed_size) := by
    unfold KGraphIndex.snapshot
    rw [hkg]
  obtain ⟨h1, h2⟩ := snapshot_reads eng fs path s kg hkg
  refine ⟨hsnap, h1, h2, ?_, extractSize_metaText s.indexed_size⟩
  intro other ho1 ho2
  rw [hsnap, read_write_other _ _ _ _ ho2, read_write_other _ _ _ _ ho1]

/-- C15 (witness): the example index with one indexed entry and a graph writes the two
files; the fresh index writes nothing. -/
theorem C15_snapshot_effect_witness :
    (demoIndex 10000 false).snapshot demoEngine [] "g" = [] ∧
    FS.read ((rebuiltAgain demoEngine (demoConfig 1) 1 F32.one demoIndexParams
        demoSearchParams [] 7 0 100).snapshot demoEngine [] "g") ("g" ++ ".meta")
      = some (metaText (rebuiltAgain demoEngine (demoConfig 1) 1 F32.one demoIndexParams
        demoSearchParams [] 7 0 100).indexed_size) :=
  ⟨(C15_snapshot_effect demoEngine (demoIndex 10000 false) [] "g").1 (by decide),
    ((C15_snapshot_effect demoEngine
      (rebuiltAgain demoEngine (demoConfig 1) 1 F32.one demoIndexParams demoSearchParams
        [] 7 0 100) [] "g").2.1 (DemoGraph.built [⟨7, 0, 100⟩]) (by decide)).2.2.1⟩

/-- C16: in either mode, `rebuild` on a state whose number of entries equals
`indexed_size` returns the state as it is (entries, `indexed_size` and graph slot
included), whatever the engine would build. -/
theorem C16_rebuild_noop (eng : KGraphEngine G) (s : KGraphIndex G)
    (h : s.entries.length = s.indexed_size) :
    s.rebuild eng = s ∧
    (s.rebuild eng).entries = s.entries ∧
    (s.rebuild eng).indexed_size = s.indexed_size ∧
    (s.rebuild eng).kg_index = s.kg_index ∧
    (∀ eng2 : KGraphEngine G, s.rebuild eng2 = s.rebuild eng) := by
  have h1 := rebuild_noop eng s h
  refine ⟨h1, by rw [h1], by rw [h1], by rw [h1], fun eng2 => ?_⟩
  rw [h1, rebuild_noop eng2 s h]

/-- C16 (witness): a second `rebuild` of the example index with its graph over one entry. -/
theorem C16_rebuild_noop_witness :
    (rebuiltAgain demoEngine (demoConfig 1) 1 F32.one demoIndexParams demoSearchParams
        [] 7 0 100).rebuild demoEngine =
      rebuiltAgain demoEngine (demoConfig 1) 1 F32.one demoIndexParams demoSearchParams
        [] 7 0 100 :=
  (C16_rebuild_noop demoEngine
    (rebuiltAgain demoEngine (demoConfig 1) 1 F32.one demoIndexParams demoSearchParams
      [] 7 0 100) (by decide)).1

/-- C18: from a freshly constructed index, after any sequence of `insert`, `rebuild`,
`snapshot` and `search` calls that runs to its end, `indexed_size` is at most the number
of entries, and a graph is present only in approximate mode with `min_index_size` at most
`indexed_size`. -/
theorem C18_restricted_invariant (sim : FeatureSimilarity) (eng : KGraphEngine G)
    (config : Config) (dK : Int) (dR : F32) (ip0 : IndexParams) (sp0 : SearchParams)
    (linear_ : Bool) (fs0 : FS) (calls : List Call) (w : World G)
    (hrun : runCalls sim eng ⟨KGraphIndex.create config dK dR ip0 sp0 linear_, fs0⟩ calls
      = some w) :
    w.index.indexed_size ≤ w.index.entries.length ∧
    (w.index.kg_index.isSome = true →
      w.index.linear = false ∧ linear_ = false ∧
        w.index.min_index_size ≤ w.index.indexed_size) ∧
    w.index.linear = linear_ ∧
    w.index.min_index_size = config.getNat "donkey.kgraph.min" 10000 := by
  obtain ⟨⟨hle, hg⟩, hlin, hmin⟩ := runCalls_keeps_graphInv sim eng linear_
    (config.getNat "donkey.kgraph.min" 10000) calls _ w hrun
    ⟨⟨Nat.zero_le _, fun h => by simp [KGraphIndex.create] at h⟩, rfl, rfl⟩
  refine ⟨hle, fun hsome => ?_, hlin, hmin⟩
  obtain ⟨h1, h2⟩ := hg hsome
  exact ⟨h1, by rw [← hlin]; exact h1, h2⟩

/-- C18 (witness): threshold 1; insert, rebuild, search, snapshot, insert, rebuild. -/
theorem C18_restricted_invariant_witness :
    ∃ w, runCalls ⟨1, fun _ _ => F32.zero⟩ demoEngine
        ⟨KGraphIndex.create (demoConfig 1) 1 F32.one demoIndexParams demoSearchParams false,
          []⟩
        [.insert 7 0 100, .rebuild, .search 5 ⟨3, F32.one⟩, .snapshot "g", .insert 8 1 101,
          .rebuild] = some w ∧
      w.index.kg_index.isSome = true ∧
      w.index.min_index_size ≤ w.index.indexed_size :=
  ⟨_, rfl, by decide,
    ((C18_restricted_invariant ⟨1, fun _ _ => F32.zero⟩ demoEngine (demoConfig 1) 1 F32.one
      demoIndexParams demoSearchParams false []
      [.insert 7 0 100, .rebuild, .search 5 ⟨3, F32.one⟩, .snapshot "g", .insert 8 1 101,
        .rebuild] _ rfl).2.1 (by decide)).2.2⟩

/-- C19 (the code at the failing input): approximate mode with threshold 0, one entry
inserted and indexed; after `clear` and `rebuild` the entries are gone and `indexed_size`
is 0, but a graph built over no entries is present, unlike in the fresh index.  With
threshold 10000 the same calls do give the fresh index. -/
theorem C19_clear_rebuild_threshold_zero :
    (run demoEngine ⟨demoIndex 0 false, []⟩
      [.insert 7 0 100, .rebuild, .clear, .rebuild]).index.entries = [] ∧
    (run demoEngine ⟨demoIndex 0 false, []⟩
      [.insert 7 0 100, .rebuild, .clear, .rebuild]).index.indexed_size = 0 ∧
    (run demoEngine ⟨demoIndex 0 false, []⟩
      [.insert 7 0 100, .rebuild, .clear, .rebuild]).index.kg_index
      = some (DemoGraph.built []) ∧
    (demoIndex 0 false).kg_index = none ∧
    (run demoEngine ⟨demoIndex 0 false, []⟩
      [.insert 7 0 100, .rebuild, .clear, .rebuild]).index ≠ demoIndex 0 false ∧
    (run demoEngine ⟨demoIndex 10000 false, []⟩
      [.insert 7 0 100, .rebuild, .clear, .rebuild]).index = demoIndex 10000 false := by
  decide

end Claims

end Donkey
